import Mathlib

/-!
DC motor control with an H-bridge (ATmega328P firmware, `main.c`)

Shallow embedding of the firmware's control logic.  The global variables, the
function-static `last_button_state` of `READ_BT1` and the I/O registers the
control logic writes (`PORTB`, `PORTC`, `OCR0A`, `OCR0B`, `TCNT2`) are the
fields of one `State` record.  Every C function becomes a function
`State → State`; the two button readers additionally take the value read from
the input register `PINC`.  Variables of type `uint8_t` hold values below 256
and variables of type `uint16_t` values below 65536: arithmetic that can leave
the range is reduced modulo the width, as the C assignment does.  The interrupt
handler is taken between two calls of the loop functions, so an execution is a
sequence of ticks and calls.
-/

namespace MotorDC

/-! ## Constants of the hardware mapping -/

/-- Initial (ramp target) duty cycle, `#define duty_in 100`. -/
def duty_in : Nat := 100
/-- Maximum duty cycle, `#define duty_max 255`. -/
def duty_max : Nat := 255

/-- Bit numbers of the ATmega328P port pins, as given by `<avr/io.h>`. -/
def PC0 : Nat := 0
def PC1 : Nat := 1
def PC2 : Nat := 2
def PC4 : Nat := 4
def PC5 : Nat := 5
def PB1 : Nat := 1
def PB2 : Nat := 2
def PB3 : Nat := 3
def PB4 : Nat := 4

def G_LED : Nat := 1 <<< PC0
def Y_LED : Nat := 1 <<< PC1
def R_LED : Nat := 1 <<< PC2
def BT1 : Nat := 1 <<< PC5
def BT2 : Nat := 1 <<< PC4
def IN1 : Nat := 1 <<< PB4
def IN2 : Nat := 1 <<< PB3
def IN3 : Nat := 1 <<< PB2
def IN4 : Nat := 1 <<< PB1

/-! ## Machine arithmetic -/

/-- The C operator `!` on an integer: 1 when the operand is zero, else 0. -/
def lnot (x : Nat) : Nat := if x = 0 then 1 else 0

/-- Store into a `uint8_t` object. -/
def u8 (x : Nat) : Nat := x % 256

/-- Store into a `uint16_t` object. -/
def u16 (x : Nat) : Nat := x % 65536

/-- The 8-bit complement of a mask, as in `PORT &= ~MASK`. -/
def cpl8 (m : Nat) : Nat := 255 ^^^ m

/-! ## State -/

/-- Global variables, the static local of `READ_BT1` and the written registers. -/
structure State where
  BT1_f : Nat
  BT2_f : Nat
  BT1_hold_f : Nat
  BT2_hold_f : Nat
  RLED_blink : Nat
  BT1_timer : Nat
  BT2_timer : Nat
  G_LED_timer : Nat
  blink_timer : Nat
  duty_timer : Nat
  dir_timer : Nat
  debounce : Nat
  duty_inc : Nat
  PWM_f1 : Nat
  PWM_f2 : Nat
  duty_f : Nat
  dir_deadt : Nat
  db_flag : Nat
  duty_inc_f : Nat
  motor_en : Nat
  dir_en : Nat
  PWM_en : Nat
  duty : Nat
  last_button_state : Nat
  PORTB : Nat
  PORTC : Nat
  OCR0A : Nat
  OCR0B : Nat
  TCNT2 : Nat
deriving DecidableEq, Repr

/-- Every `uint8_t` object is below 256 and every `uint16_t` object below 65536. -/
def State.WF (s : State) : Prop :=
  s.BT1_f < 256 ∧ s.BT2_f < 256 ∧ s.BT1_hold_f < 256 ∧ s.BT2_hold_f < 256 ∧
  s.RLED_blink < 256 ∧
  s.BT1_timer < 65536 ∧ s.BT2_timer < 65536 ∧ s.G_LED_timer < 65536 ∧
  s.blink_timer < 65536 ∧ s.duty_timer < 65536 ∧ s.dir_timer < 65536 ∧
  s.debounce < 65536 ∧ s.duty_inc < 65536 ∧
  s.PWM_f1 < 256 ∧ s.PWM_f2 < 256 ∧ s.duty_f < 256 ∧ s.dir_deadt < 256 ∧
  s.db_flag < 256 ∧ s.duty_inc_f < 256 ∧
  s.motor_en < 256 ∧ s.dir_en < 256 ∧ s.PWM_en < 256 ∧ s.duty < 256 ∧
  s.last_button_state < 256 ∧
  s.PORTB < 256 ∧ s.PORTC < 256 ∧ s.OCR0A < 256 ∧ s.OCR0B < 256 ∧ s.TCNT2 < 256

instance (s : State) : Decidable s.WF := by
  unfold State.WF; infer_instance

/-- State when `main` enters its loop: all globals zero, LEDs off, button
pull-ups on, direction lines forward (`IN1`, `IN3` high; `IN2`, `IN4` low),
both compare registers zero, `TCNT2 = 6`.  Register bits that `main` does not
write are taken at their reset value 0. -/
def reset : State :=
  { BT1_f := 0, BT2_f := 0, BT1_hold_f := 0, BT2_hold_f := 0, RLED_blink := 0,
    BT1_timer := 0, BT2_timer := 0, G_LED_timer := 0, blink_timer := 0,
    duty_timer := 0, dir_timer := 0, debounce := 0, duty_inc := 0,
    PWM_f1 := 0, PWM_f2 := 0, duty_f := 0, dir_deadt := 0, db_flag := 0,
    duty_inc_f := 0, motor_en := 0, dir_en := 0, PWM_en := 0, duty := 0,
    last_button_state := 0,
    PORTB := ((0 ||| (IN1 ||| IN3)) &&& cpl8 (IN2 ||| IN4)),
    PORTC := ((0 &&& cpl8 (G_LED ||| Y_LED ||| R_LED)) ||| (BT1 ||| BT2)),
    OCR0A := 0, OCR0B := 0, TCNT2 := 6 }

/-! ## The timer-2 overflow handler -/

/-- Handler `ISR(TIMER2_OVF_vect)`: one tick. -/
def ISR_TIMER2_OVF (s : State) : State :=
  let s : State := { s with TCNT2 := 6 }
  let s : State := { s with G_LED_timer := u16 (s.G_LED_timer + 1) }
  let s : State := { s with duty_timer := u16 (s.duty_timer + 1) }
  let s : State := { s with dir_timer := u16 (s.dir_timer + 1) }
  let s : State := { s with duty_inc := u16 (s.duty_inc + 1) }
  let s : State := if s.G_LED_timer = 500 then
      { s with G_LED_timer := 0, PORTC := s.PORTC ^^^ G_LED }
    else s
  let s : State := if s.debounce < 20 then
      { s with debounce := u16 (s.debounce + 1) }
    else if s.debounce = 20 then
      { s with debounce := 0, db_flag := 1 }
    else s
  let s : State := if s.duty_timer = 20 then { s with duty_timer := 0, duty_f := 1 } else s
  let s : State := if s.duty_inc = 15 then { s with duty_inc := 0, duty_inc_f := 1 } else s
  let s : State := if s.dir_timer = 100 then { s with dir_timer := 0, dir_deadt := 1 } else s
  let s : State := if s.BT1_f ≠ 0 then
      let s : State := { s with BT1_timer := u16 (s.BT1_timer + 1) }
      if s.BT1_f ≠ 0 ∧ s.BT1_timer = 1500 then
        { s with BT1_timer := 0, BT1_hold_f := 1, PORTC := s.PORTC ||| Y_LED }
      else s
    else s
  let s : State := if s.BT2_f ≠ 0 then
      let s : State := { s with BT2_timer := u16 (s.BT2_timer + 1) }
      if s.BT2_f ≠ 0 ∧ s.BT2_timer = 1000 then
        { s with BT2_hold_f := 1 }
      else s
    else s
  if s.RLED_blink ≠ 0 then
    let s : State := { s with blink_timer := u16 (s.blink_timer + 1) }
    if s.blink_timer ≥ 200 then
      { s with blink_timer := 0, PORTC := s.PORTC ^^^ Y_LED }
    else s
  else s

/-! ## The functions of the main loop -/

/-- Function `READ_BT1`: start/direction button; `PINC` is the value read from
the input register (the button is active low on bit `PC5`). -/
def READ_BT1 (PINC : Nat) (s : State) : State :=
  let press_button := lnot (PINC &&& BT1)
  if press_button ≠ 0 ∧ s.last_button_state = 0 ∧ s.db_flag ≠ 0 then
    { s with BT1_f := 1, BT1_timer := 0, db_flag := 0, last_button_state := 1 }
  else if lnot press_button ≠ 0 ∧ s.last_button_state = 1 ∧ lnot s.BT1_hold_f ≠ 0 then
    if lnot press_button ≠ 0 ∧ s.db_flag ≠ 0 then
      { s with BT1_f := 0, motor_en := lnot s.motor_en, last_button_state := 0,
               db_flag := 0 }
    else s
  else if lnot press_button ≠ 0 ∧ s.last_button_state = 1 ∧ s.BT1_hold_f ≠ 0
      ∧ s.motor_en ≠ 0 then
    if lnot press_button ≠ 0 ∧ s.db_flag ≠ 0 then
      let s : State := { s with PORTC := s.PORTC &&& cpl8 Y_LED }
      let s : State := { s with PORTC := s.PORTC ||| R_LED }
      { s with BT1_f := 0, BT1_hold_f := 0, last_button_state := 0,
               dir_en := lnot s.dir_en, db_flag := 0 }
    else s
  else s

/-- Function `motor_enable`: soft start / soft stop ramp. -/
def motor_enable (s : State) : State :=
  let local_duty := s.duty_f
  let s : State := { s with duty_f := 0 }
  if s.motor_en ≠ 0 then
    let s : State := { s with PORTC := s.PORTC ||| R_LED }
    if s.duty < duty_in then
      if local_duty ≠ 0 then
        let s : State := { s with duty := u8 (s.duty + 5) }
        let s : State := if s.duty > duty_in then { s with duty := duty_in } else s
        let s : State := { s with OCR0A := s.duty }
        let s : State := { s with OCR0B := s.duty }
        { s with duty_f := 0 }
      else s
    else s
  else if lnot s.motor_en ≠ 0 then
    let s : State := { s with PORTC := s.PORTC &&& cpl8 R_LED }
    if s.duty > 0 then
      if local_duty ≠ 0 then
        let s : State := { s with duty := u8 (s.duty + 255) }
        let s : State := { s with OCR0A := s.duty }
        let s : State := { s with OCR0B := s.duty }
        { s with duty_f := 0 }
      else s
    else s
  else s

/-- Function `dir_enable`: direction reversal. -/
def dir_enable (s : State) : State :=
  if s.dir_en ≠ 0 then
    let duty_state := s.duty
    let s : State := { s with OCR0A := 0 }
    let s : State := { s with OCR0B := 0 }
    let s : State := { s with PORTB := s.PORTB ^^^ (IN1 ||| IN3) }
    let s : State := if s.dir_timer ≠ 0 then
        let s : State := { s with PORTB := s.PORTB ^^^ (IN2 ||| IN4) }
        { s with dir_en := 0, duty_f := 0 }
      else s
    let s : State := { s with OCR0A := duty_state }
    { s with OCR0B := duty_state }
  else s

/-- Function `READ_BT2`: PWM increment button; `PINC` is the value read from the
input register (the button is active low on bit `PC4`). -/
def READ_BT2 (PINC : Nat) (s : State) : State :=
  let button_pressed := lnot (PINC &&& BT2)
  let s : State := if button_pressed ≠ 0 ∧ lnot s.BT2_f ≠ 0 ∧ s.motor_en ≠ 0 then
      let s : State := { s with BT2_f := 1, BT2_timer := 0 }
      let s : State := { s with PORTC := s.PORTC ||| Y_LED }
      { s with db_flag := 0 }
    else if button_pressed ≠ 0 ∧ s.BT2_hold_f ≠ 0 then
      { s with PWM_f1 := 1, RLED_blink := 1 }
    else s
  if lnot button_pressed ≠ 0 ∧ s.BT2_f ≠ 0 then
    if lnot button_pressed ≠ 0 ∧ s.db_flag ≠ 0 then
      let s : State := { s with PWM_f2 := 1, BT2_f := 0, db_flag := 0 }
      let s : State := { s with PORTC := s.PORTC ||| Y_LED }
      if s.G_LED_timer ≠ 0 then
        { s with PORTC := s.PORTC &&& cpl8 Y_LED }
      else s
    else s
  else if lnot button_pressed ≠ 0 ∧ s.BT2_hold_f ≠ 0 then
    if lnot button_pressed ≠ 0 ∧ s.db_flag ≠ 0 then
      let s : State :=
        { s with PWM_f1 := 0, RLED_blink := 0, BT2_timer := 0, BT2_f := 0, db_flag := 0 }
      { s with PORTC := s.PORTC &&& cpl8 Y_LED }
    else s
  else s

/-- Function `PWM_enable`: continuous (`PWM_f1`) and tap (`PWM_f2`) increment of
the duty cycle.  `duty` is a `uint8_t`: `duty++` and `duty += 25` store the sum
modulo 256 before the comparison with `duty_max` reads it back. -/
def PWM_enable (s : State) : State :=
  let s : State := if s.PWM_f1 ≠ 0 then
      if s.duty > 0 then
        if s.duty_inc_f ≠ 0 then
          let s : State := { s with duty_inc_f := 0 }
          let s : State := { s with duty := u8 (s.duty + 1) }
          let s : State := if s.duty ≥ duty_max then { s with duty := duty_max } else s
          let s : State := { s with OCR0A := s.duty }
          { s with OCR0B := s.duty }
        else s
      else s
    else s
  if s.PWM_f2 ≠ 0 then
    if s.duty > 0 then
      let s : State := { s with duty := u8 (s.duty + 25) }
      let s : State := if s.duty > duty_max then { s with duty := duty_in } else s
      let s : State := { s with OCR0A := s.duty }
      let s : State := { s with OCR0B := s.duty }
      { s with PWM_f2 := 0 }
    else s
  else s

/-! ## Executions -/

/-- The operations an execution is made of: a tick of the interrupt handler or
one of the five calls of the main loop (the readers with the sampled `PINC`). -/
inductive Op where
  | tick : Op
  | read_bt1 : Nat → Op
  | motor : Op
  | dir : Op
  | read_bt2 : Nat → Op
  | pwm : Op
deriving DecidableEq, Repr

/-- Effect of one operation. -/
def step (s : State) : Op → State
  | Op.tick => ISR_TIMER2_OVF s
  | Op.read_bt1 pinc => READ_BT1 pinc s
  | Op.motor => motor_enable s
  | Op.dir => dir_enable s
  | Op.read_bt2 pinc => READ_BT2 pinc s
  | Op.pwm => PWM_enable s

/-- Effect of a sequence of operations, first operation first. -/
def run (s : State) (ops : List Op) : State := ops.foldl step s

/-- Value of `PINC` with both buttons released (pull-ups read high). -/
def pinc_released : Nat := BT1 ||| BT2
/-- Value of `PINC` with button 1 pressed and button 2 released. -/
def pinc_bt1 : Nat := BT2
/-- Value of `PINC` with button 2 pressed and button 1 released. -/
def pinc_bt2 : Nat := BT1

/-- Line `b` of a port register is high. -/
def line (port b : Nat) : Bool := port.testBit b

/-! ## Concrete states used to evaluate the code -/

/-- Motor running forward after the soft start: `motor_en` set, duty at the
ramp target on both PWM channels, red LED on, dead-time flag already latched by
the handler (it is raised at tick 100 and never cleared). -/
def running : State :=
  { reset with motor_en := 1, duty := 100, OCR0A := 100, OCR0B := 100, dir_deadt := 1,
               PORTC := BT1 ||| BT2 ||| R_LED }

/-- Running motor right after `READ_BT1` accepted a hold release: `dir_en` set,
sampled in the millisecond in which the free-running `dir_timer` reads 0. -/
def flip_pending : State := { running with dir_en := 1 }

/-- Flip requested while the soft start is still ramping and a ramp step is due. -/
def ramp_during_flip : State :=
  { flip_pending with duty := 50, OCR0A := 50, OCR0B := 50, duty_f := 1 }

/-- Flip requested while button 2 is held in continuous mode and an increment
step is due. -/
def inc_during_flip : State :=
  { flip_pending with BT2_f := 1, BT2_hold_f := 1, PWM_f1 := 1, RLED_blink := 1,
                      duty_inc_f := 1 }

/-- Running motor at duty 250 (six tap steps above the ramp target) with a tap
request pending. -/
def tap_at_250 : State :=
  { running with duty := 250, OCR0A := 250, OCR0B := 250, PWM_f2 := 1 }

/-- Running motor in continuous mode at the maximum duty with an increment
step due. -/
def hold_at_max : State :=
  { running with duty := 255, OCR0A := 255, OCR0B := 255, BT2_f := 1, BT2_hold_f := 1,
                 PWM_f1 := 1, RLED_blink := 1, duty_inc_f := 1 }

/-- Motor disabled, button 1 pressed and held past the hold threshold (the
handler has raised `BT1_hold_f` and lit the yellow LED), debounce flag ready. -/
def held_while_stopped : State :=
  { reset with BT1_f := 1, BT1_hold_f := 1, last_button_state := 1, db_flag := 1,
               dir_deadt := 1, PORTC := BT1 ||| BT2 ||| Y_LED }

/-- Running motor with button 2 held past its hold threshold: continuous mode
active (`PWM_f1`, `RLED_blink`), debounce flag ready, duty already raised to 130. -/
def hold_active : State :=
  { running with duty := 130, OCR0A := 130, OCR0B := 130, BT2_f := 1, BT2_hold_f := 1,
                 BT2_timer := 1000, PWM_f1 := 1, RLED_blink := 1, db_flag := 1,
                 PORTC := BT1 ||| BT2 ||| R_LED ||| Y_LED }

/-! ## The handler block by block -/

/-- Handler, first block: reload of `TCNT2` and the four unconditional
increments. -/
def isr_counters (s : State) : State :=
  let s : State := { s with TCNT2 := 6 }
  let s : State := { s with G_LED_timer := u16 (s.G_LED_timer + 1) }
  let s : State := { s with duty_timer := u16 (s.duty_timer + 1) }
  let s : State := { s with dir_timer := u16 (s.dir_timer + 1) }
  { s with duty_inc := u16 (s.duty_inc + 1) }

/-- Handler, green LED block. -/
def isr_gled (s : State) : State :=
  if s.G_LED_timer = 500 then
    { s with G_LED_timer := 0, PORTC := s.PORTC ^^^ G_LED }
  else s

/-- Handler, debounce block. -/
def isr_debounce (s : State) : State :=
  if s.debounce < 20 then
    { s with debounce := u16 (s.debounce + 1) }
  else if s.debounce = 20 then
    { s with debounce := 0, db_flag := 1 }
  else s

/-- Handler, ramp cadence block. -/
def isr_duty_timer (s : State) : State :=
  if s.duty_timer = 20 then { s with duty_timer := 0, duty_f := 1 } else s

/-- Handler, increment cadence block. -/
def isr_duty_inc (s : State) : State :=
  if s.duty_inc = 15 then { s with duty_inc := 0, duty_inc_f := 1 } else s

/-- Handler, dead-time block. -/
def isr_dir_timer (s : State) : State :=
  if s.dir_timer = 100 then { s with dir_timer := 0, dir_deadt := 1 } else s

/-- Handler, button-1 hold block. -/
def isr_bt1 (s : State) : State :=
  if s.BT1_f ≠ 0 then
    let s : State := { s with BT1_timer := u16 (s.BT1_timer + 1) }
    if s.BT1_f ≠ 0 ∧ s.BT1_timer = 1500 then
      { s with BT1_timer := 0, BT1_hold_f := 1, PORTC := s.PORTC ||| Y_LED }
    else s
  else s

/-- Handler, button-2 hold block. -/
def isr_bt2 (s : State) : State :=
  if s.BT2_f ≠ 0 then
    let s : State := { s with BT2_timer := u16 (s.BT2_timer + 1) }
    if s.BT2_f ≠ 0 ∧ s.BT2_timer = 1000 then
      { s with BT2_hold_f := 1 }
    else s
  else s

/-- Handler, blink block of the continuous increment mode. -/
def isr_blink (s : State) : State :=
  if s.RLED_blink ≠ 0 then
    let s : State := { s with blink_timer := u16 (s.blink_timer + 1) }
    if s.blink_timer ≥ 200 then
      { s with blink_timer := 0, PORTC := s.PORTC ^^^ Y_LED }
    else s
  else s

/-! ## Button levels and accepted transitions -/

/-- Button 1 reads released: bit `PC5` of `PINC` is high, so `press_button` is 0. -/
def bt1_released (PINC : Nat) : Prop := PINC &&& BT1 ≠ 0

instance (PINC : Nat) : Decidable (bt1_released PINC) := by
  unfold bt1_released; infer_instance

/-- The `READ_BT1` call with input `PINC` accepts a transition in state `s`: it
changes `last_button_state`. -/
def accepts (PINC : Nat) (s : State) : Prop :=
  (READ_BT1 PINC s).last_button_state ≠ s.last_button_state

instance (PINC : Nat) (s : State) : Decidable (accepts PINC s) := by
  unfold accepts; infer_instance

/-- Button 1 pressed and not yet held: `last_button_state = 1`, hold flag clear,
debounce flag ready, motor stopped. -/
def pressed_short : State :=
  { reset with BT1_f := 1, BT1_timer := 40, last_button_state := 1, db_flag := 1 }

/-- Running motor with button 1 held past the hold threshold: the handler has
raised `BT1_hold_f` and lit the yellow LED; debounce flag ready. -/
def held_while_running : State :=
  { running with BT1_f := 1, BT1_hold_f := 1, last_button_state := 1, db_flag := 1,
                 PORTC := BT1 ||| BT2 ||| R_LED ||| Y_LED }

/-- Soft start in progress: motor enabled, duty 40 on both channels, ramp step
due. -/
def ramping_up : State :=
  { reset with motor_en := 1, duty := 40, OCR0A := 40, OCR0B := 40, duty_f := 1,
               PORTC := BT1 ||| BT2 ||| R_LED }

/-! ## Ramp steps -/

/-- One ramp period: twenty ticks of the handler (the ramp cadence, during
which it raises `duty_f`) followed by the `motor_enable` call that consumes the
flag. -/
def ramp_step (s : State) : State := motor_enable (ISR_TIMER2_OVF^[20] s)

/-- Soft stop in progress: motor disabled, duty 3 on both channels, ramp step
due. -/
def ramping_down : State :=
  { reset with duty := 3, OCR0A := 3, OCR0B := 3, duty_f := 1 }

/-- Motor just enabled by a tap: `motor_en` set, duty still 0. -/
def just_enabled : State := { reset with motor_en := 1 }

/-! ## Tick sequences -/

/-- The execution made of `n` consecutive ticks. -/
def ticks (n : Nat) : List Op := List.replicate n Op.tick

/-! ## Button 2 levels -/

/-- Button 2 reads pressed: bit `PC4` of `PINC` is low, so `button_pressed` is 1. -/
def bt2_pressed (PINC : Nat) : Prop := PINC &&& BT2 = 0

instance (PINC : Nat) : Decidable (bt2_pressed PINC) := by
  unfold bt2_pressed; infer_instance

/-- After a first hold of button 2 (`BT2_hold_f` stays set), motor running,
button 2 idle. -/
def after_first_hold : State := { running with BT2_hold_f := 1 }

/-! ## Direction toggles and the matched PWM pair -/

/-- One completed direction toggle: `dir_en` is set by the assignment
`dir_en = !dir_en` of the hold release and the next `dir_enable` call runs. -/
def toggle_direction (s : State) : State := dir_enable { s with dir_en := lnot s.dir_en }

/-- The two PWM channels carry the duty: `OCR0A = OCR0B = duty`. -/
def matched_pwm (s : State) : Prop := s.OCR0A = s.duty ∧ s.OCR0B = s.duty

instance (s : State) : Decidable (matched_pwm s) := by
  unfold matched_pwm; infer_instance

/-! ## Hold of button 1 while button 2 blinks -/

/-- Running motor with button 2 held in continuous mode (blink active, blink
counter at 100) at the moment `READ_BT1` has accepted a press of button 1
(`BT1_f` set, `BT1_timer` restarted). -/
def both_buttons_held : State :=
  { running with BT1_f := 1, BT1_timer := 0, last_button_state := 1,
                 BT2_f := 1, BT2_hold_f := 1, PWM_f1 := 1, RLED_blink := 1,
                 blink_timer := 100, PORTC := BT1 ||| BT2 ||| R_LED ||| Y_LED }

/-! ## The stuck state of button 1 -/

/-- Button 1 held past the threshold with the motor disabled:
`last_button_state = 1`, `BT1_hold_f` set, `motor_en = 0`. -/
def stuck_bt1 (s : State) : Prop :=
  s.last_button_state = 1 ∧ s.BT1_hold_f ≠ 0 ∧ s.motor_en = 0

instance (s : State) : Decidable (stuck_bt1 s) := by
  unfold stuck_bt1; infer_instance

/-- The state `after_first_hold` once `READ_BT2` has accepted a new press of
button 2: `BT2_f` set, `BT2_timer` restarted at 0, hold flag still set. -/
def pressed_after_first_hold : State := READ_BT2 pinc_bt2 after_first_hold

/-! ## The dead-time flag along executions -/

/-- Button 1 is sampled pressed after `n` ticks. -/
def wait_press (n : Nat) (s : State) : State := READ_BT1 pinc_bt1 (ISR_TIMER2_OVF^[n] s)

/-- Button 1 is sampled released after `n` ticks. -/
def wait_release (n : Nat) (s : State) : State :=
  READ_BT1 pinc_released (ISR_TIMER2_OVF^[n] s)

/-- A tap of button 1 from reset (motor on), then a press held for 1500 ticks
and released: ticks and `READ_BT1` calls only. -/
def tap_then_hold : List Op :=
  ticks 21 ++ Op.read_bt1 pinc_bt1 :: (ticks 21 ++ Op.read_bt1 pinc_released ::
    (ticks 21 ++ Op.read_bt1 pinc_bt1 :: (ticks 1500 ++ [Op.read_bt1 pinc_released])))

/-- Button 1 idle with the debounce counter in its range. -/
def bt1_idle (s : State) : Prop :=
  s.last_button_state = 0 ∧ s.BT1_f = 0 ∧ s.BT1_hold_f = 0 ∧ s.debounce ≤ 20

/-- Button 1 just accepted as pressed: hold counter restarted, hold flag clear,
debounce counter in its range. -/
def bt1_pressed (s : State) : Prop :=
  s.last_button_state = 1 ∧ s.BT1_f = 1 ∧ s.BT1_timer = 0 ∧ s.BT1_hold_f = 0 ∧
  s.debounce ≤ 20

/-! ## Executions in the order of the main loop -/

/-- The list of operations follows `main`: the five calls in the order
`READ_BT1`, `motor_enable`, `dir_enable`, `READ_BT2`, `PWM_enable`, over and
over, with at most 19 ticks of the handler before each call.  `pc` is the
index of the next call and `k` the number of ticks taken since the last
call. -/
def loop_order : Nat → Nat → List Op → Bool
  | _, _, [] => true
  | pc, k, Op.tick :: rest => decide (k < 19) && loop_order pc (k + 1) rest
  | 0, _, Op.read_bt1 _ :: rest => loop_order 1 0 rest
  | 1, _, Op.motor :: rest => loop_order 2 0 rest
  | 2, _, Op.dir :: rest => loop_order 3 0 rest
  | 3, _, Op.read_bt2 _ :: rest => loop_order 4 0 rest
  | 4, _, Op.pwm :: rest => loop_order 0 0 rest
  | _, _, _ => false

/-- Largest value `dir_timer` can have reached at call index `pc` when the last
`dir_enable` call found it at 0 and left the flip pending. -/
def window_bound : Nat → Nat
  | 3 => 0
  | 4 => 19
  | 0 => 38
  | 1 => 57
  | 2 => 76
  | _ => 0

/-- Invariant of the executions in loop order: while a flip is pending the hold
flag of button 1 is clear and the hold counter has not overtaken `dir_timer`;
either the flip was requested in this pass and `dir_enable` has not run yet, or
`dir_timer` has counted fewer than 100 ticks since the `dir_enable` call that
left the flip pending. -/
def flip_window (pc k : Nat) (s : State) : Prop :=
  k ≤ 19 ∧
  (s.dir_en ≠ 0 →
    s.BT1_hold_f = 0 ∧ (s.BT1_f ≠ 0 → s.BT1_timer ≤ s.dir_timer) ∧
    (((pc = 1 ∨ pc = 2) ∧ s.BT1_f = 0) ∨ s.dir_timer ≤ window_bound pc + k))

/-! ## Power-on with button 1 held -/

/-- One pass of the main loop in source order, 19 ticks after the previous
one, with button 1 read pressed and button 2 read released. -/
def hold_pass_ops : List Op :=
  ticks 19 ++ [Op.read_bt1 pinc_bt1, Op.motor, Op.dir, Op.read_bt2 pinc_released, Op.pwm]

/-- Effect of one pass `hold_pass_ops`. -/
def hold_pass (s : State) : State :=
  PWM_enable (READ_BT2 pinc_released (dir_enable (motor_enable
    (READ_BT1 pinc_bt1 (ISR_TIMER2_OVF^[19] s)))))

/-- The schedule made of `n` passes `hold_pass_ops`. -/
def hold_passes : Nat → List Op
  | 0 => []
  | n + 1 => hold_pass_ops ++ hold_passes n

/-- Power-on with button 1 held down for 81 passes of the main loop (1539
ticks). -/
def power_on_hold : List Op := hold_passes 81

/-- The variables of button 1 that only the handler and `READ_BT1` write. -/
def bt1_view (s : State) : Nat × Nat × Nat × Nat × Nat × Nat :=
  (s.BT1_f, s.BT1_timer, s.BT1_hold_f, s.last_button_state, s.motor_en, s.debounce)

/-- Button 1 accepted as pressed `T` ticks ago with the motor stopped and still
read pressed. -/
def held_for (T : Nat) (s : State) : Prop :=
  s.last_button_state = 1 ∧ s.BT1_f ≠ 0 ∧ s.motor_en = 0 ∧ s.BT1_timer = T % 1500 ∧
  s.BT1_hold_f = if 1500 ≤ T then 1 else 0

/-- The execution `tap_then_hold` followed by the `dir_enable` call that
completes the flip it requested. -/
def first_flip : List Op := tap_then_hold ++ [Op.dir]

/-! ## A first hold of button 2 -/

/-- A tap of button 1 from reset (motor on), then button 2 pressed, held for
1000 ticks and released. -/
def hold_button2 : List Op :=
  ticks 21 ++ Op.read_bt1 pinc_bt1 :: (ticks 21 ++ Op.read_bt1 pinc_released ::
    Op.read_bt2 pinc_bt2 :: (ticks 1000 ++ [Op.read_bt2 pinc_released]))

/-- The flags of button 2 that only `READ_BT2` writes. -/
def bt2_view (s : State) : Nat × Nat × Nat := (s.BT2_f, s.PWM_f1, s.RLED_blink)

/-! ## Duty-cycle steps -/

/-- The ramp leaves `duty` alone exactly when no ramp step is due. -/
theorem motor_enable_duty_iff (s : State) (hd : s.duty < 256) :
    (motor_enable s).duty = s.duty ↔
      (s.duty_f = 0 ∨ (s.motor_en ≠ 0 ∧ duty_in ≤ s.duty) ∨ (s.motor_en = 0 ∧ s.duty = 0)) := by
  unfold motor_enable lnot u8 duty_in
  by_cases hm : s.motor_en = 0 <;> by_cases hf : s.duty_f = 0 <;> simp [hm, hf]
  all_goals (try split_ifs)
  all_goals (try simp)
  all_goals (try omega)

/-- The increment logic leaves `duty` alone exactly when no increment is due. -/
theorem PWM_enable_duty_iff (s : State) (hd : s.duty < 256) :
    (PWM_enable s).duty = s.duty ↔
      (s.duty = 0 ∨ (s.PWM_f2 = 0 ∧ (s.PWM_f1 = 0 ∨ s.duty_inc_f = 0))) := by
  unfold PWM_enable u8 duty_in duty_max
  by_cases h1 : s.PWM_f1 = 0 <;> by_cases h2 : s.PWM_f2 = 0 <;> by_cases hi : s.duty_inc_f = 0
    <;> by_cases h0 : s.duty = 0 <;> simp [h1, h2, hi, h0]
  all_goals (try split_ifs)
  all_goals (try simp)
  all_goals (try omega)

/-- Neither the ramp nor the increment logic writes `dir_en`. -/
theorem motor_enable_dir_en (s : State) : (motor_enable s).dir_en = s.dir_en := by
  unfold motor_enable
  simp only []
  split_ifs <;> rfl

/-- The increment logic does not write `dir_en`. -/
theorem PWM_enable_dir_en (s : State) : (PWM_enable s).dir_en = s.dir_en := by
  unfold PWM_enable
  simp only []
  split_ifs <;> rfl

/-! ## Direction sequencer -/

/-- Claim C1, evaluated on the code: with a flip pending and `dir_timer = 0`
the first `dir_enable` call flips `IN1`/`IN3` and leaves `dir_en` set; after one
tick the second call flips `IN1`/`IN3` again together with `IN2`/`IN4` and
clears `dir_en`.  At that call `IN1` and `IN3` carry their starting value (not
its complement) and only `IN2` and `IN4` are complemented. -/
theorem C1_first_pair_flipped_twice :
    (dir_enable flip_pending).dir_en ≠ 0 ∧
    (run flip_pending [Op.dir, Op.tick, Op.dir]).dir_en = 0 ∧
    line (run flip_pending [Op.dir, Op.tick, Op.dir]).PORTB PB4 = line flip_pending.PORTB PB4 ∧
    line (run flip_pending [Op.dir, Op.tick, Op.dir]).PORTB PB2 = line flip_pending.PORTB PB2 ∧
    line (run flip_pending [Op.dir, Op.tick, Op.dir]).PORTB PB3
      = !line flip_pending.PORTB PB3 ∧
    line (run flip_pending [Op.dir, Op.tick, Op.dir]).PORTB PB1
      = !line flip_pending.PORTB PB1 := by
  decide

/-- Claim C2, evaluated on the code: with a flip pending, duty 100 and
`dir_timer = 0`, `dir_enable` returns with `dir_en` still set and both compare
registers back at 100, not at 0. -/
theorem C2_pwm_restored_before_flip_completes :
    flip_pending.dir_en ≠ 0 ∧
    (dir_enable flip_pending).dir_en ≠ 0 ∧
    (dir_enable flip_pending).OCR0A = 100 ∧
    (dir_enable flip_pending).OCR0B = 100 := by
  decide

/-! ## Duty cycle while a flip is pending -/

/-- Claim C4 as stated fails: with `dir_en` set, a due ramp step takes the duty
from 50 to 55 in `motor_enable`, and a due continuous step takes it from 100 to
101 in `PWM_enable`. -/
theorem C4_duty_changes_during_flip :
    ramp_during_flip.dir_en ≠ 0 ∧ ramp_during_flip.duty = 50 ∧
    (motor_enable ramp_during_flip).duty = 55 ∧
    inc_during_flip.dir_en ≠ 0 ∧ inc_during_flip.duty = 100 ∧
    (PWM_enable inc_during_flip).duty = 101 := by
  decide

/-! ## Speed increment -/

/-- Claim C5, evaluated on the code: a tap step from duty 250 stores
`(250 + 25) mod 256 = 19` in the 8-bit `duty`; the comparison with `duty_max`
then reads 19, so the duty is 19 (not the initial ramp value 100), written to
both compare registers, with `PWM_f2` cleared. -/
theorem C5_tap_step_wraps_modulo_256 :
    tap_at_250.PWM_f2 ≠ 0 ∧ tap_at_250.PWM_f1 = 0 ∧ tap_at_250.duty = 250 ∧
    (PWM_enable tap_at_250).duty = 19 ∧
    (PWM_enable tap_at_250).duty ≠ duty_in ∧
    (PWM_enable tap_at_250).OCR0A = 19 ∧ (PWM_enable tap_at_250).OCR0B = 19 ∧
    (PWM_enable tap_at_250).PWM_f2 = 0 := by
  decide

/-- Claim C6, evaluated on the code: a continuous step from duty 255 stores
`(255 + 1) mod 256 = 0` in the 8-bit `duty`; the clamp then reads 0, so the
duty and both compare registers drop to 0 instead of staying at 255. -/
theorem C6_continuous_step_wraps_at_max :
    hold_at_max.PWM_f1 ≠ 0 ∧ hold_at_max.PWM_f2 = 0 ∧ hold_at_max.duty_inc_f ≠ 0 ∧
    hold_at_max.duty = 255 ∧
    (PWM_enable hold_at_max).duty = 0 ∧
    (PWM_enable hold_at_max).OCR0A = 0 ∧ (PWM_enable hold_at_max).OCR0B = 0 ∧
    (PWM_enable hold_at_max).duty_inc_f = 0 := by
  decide

/-! ## Button classifiers -/

/-- Claim C7, evaluated on the code: with the motor disabled, button 1 held
past the threshold and the debounce flag ready, `READ_BT1` with the button
released changes nothing: `last_button_state`, `BT1_f` and `BT1_hold_f` all
stay 1, and a following press with the flag still ready is not accepted
either. -/
theorem C7_hold_release_while_stopped_is_stuck :
    held_while_stopped.last_button_state = 1 ∧ held_while_stopped.BT1_hold_f ≠ 0 ∧
    held_while_stopped.motor_en = 0 ∧ held_while_stopped.db_flag ≠ 0 ∧
    READ_BT1 pinc_released held_while_stopped = held_while_stopped ∧
    (READ_BT1 pinc_released held_while_stopped).last_button_state = 1 ∧
    (READ_BT1 pinc_released held_while_stopped).BT1_f = 1 ∧
    (READ_BT1 pinc_released held_while_stopped).BT1_hold_f = 1 ∧
    READ_BT1 pinc_bt1 (READ_BT1 pinc_released held_while_stopped) = held_while_stopped := by
  decide

/-- Claim C8, evaluated on the code: with `BT2_f` and `BT2_hold_f` both set and
the debounce flag ready, `READ_BT2` with button 2 released takes the tap-release
branch and raises `PWM_f2`; the following `PWM_enable` applies the +25 tap step
(130 to 155). -/
theorem C8_hold_release_raises_tap_request :
    hold_active.BT2_f ≠ 0 ∧ hold_active.BT2_hold_f ≠ 0 ∧ hold_active.PWM_f2 = 0 ∧
    (READ_BT2 pinc_released hold_active).PWM_f2 = 1 ∧
    hold_active.duty = 130 ∧
    (PWM_enable (READ_BT2 pinc_released hold_active)).duty = 155 := by
  decide

/-- Claim C9, evaluated on the code: in continuous mode with the debounce flag
ready, one `READ_BT2` call with button 2 released leaves `PWM_f1` and
`RLED_blink` set (it clears `BT2_f` and consumes the flag instead); the duty is
unchanged by the call. -/
theorem C9_release_leaves_continuous_mode_on :
    hold_active.PWM_f1 ≠ 0 ∧ hold_active.RLED_blink ≠ 0 ∧ hold_active.BT2_f ≠ 0 ∧
    hold_active.BT2_hold_f ≠ 0 ∧ hold_active.db_flag ≠ 0 ∧
    (READ_BT2 pinc_released hold_active).PWM_f1 = 1 ∧
    (READ_BT2 pinc_released hold_active).RLED_blink = 1 ∧
    (READ_BT2 pinc_released hold_active).BT2_f = 0 ∧
    (READ_BT2 pinc_released hold_active).db_flag = 0 ∧
    (READ_BT2 pinc_released hold_active).duty = hold_active.duty := by
  decide

/-- Claim C10, evaluated on the code: with the debounce flag clear, the motor
enabled and `BT2_f` clear, `READ_BT2` with button 2 pressed accepts the press
and sets `BT2_f`. -/
theorem C10_press_accepted_without_debounce :
    running.db_flag = 0 ∧ running.BT2_f = 0 ∧ running.motor_en ≠ 0 ∧
    (READ_BT2 pinc_bt2 running).BT2_f = 1 := by
  decide

/-! ## The handler block by block: normal forms -/

/-- The handler is the composition of its blocks, in source order. -/
theorem ISR_blocks (s : State) :
    ISR_TIMER2_OVF s =
      isr_blink (isr_bt2 (isr_bt1 (isr_dir_timer (isr_duty_inc (isr_duty_timer
        (isr_debounce (isr_gled (isr_counters s)))))))) := rfl

theorem isr_counters_eq (s : State) : isr_counters s =
    { s with TCNT2 := 6, G_LED_timer := u16 (s.G_LED_timer + 1),
             duty_timer := u16 (s.duty_timer + 1), dir_timer := u16 (s.dir_timer + 1),
             duty_inc := u16 (s.duty_inc + 1) } := rfl

theorem isr_gled_eq (s : State) : isr_gled s =
    { s with G_LED_timer := if s.G_LED_timer = 500 then 0 else s.G_LED_timer,
             PORTC := if s.G_LED_timer = 500 then s.PORTC ^^^ G_LED else s.PORTC } := by
  unfold isr_gled; split_ifs <;> rfl

theorem isr_debounce_eq (s : State) : isr_debounce s =
    { s with debounce := if s.debounce < 20 then u16 (s.debounce + 1)
                         else if s.debounce = 20 then 0 else s.debounce,
             db_flag := if s.debounce < 20 then s.db_flag
                        else if s.debounce = 20 then 1 else s.db_flag } := by
  unfold isr_debounce; split_ifs <;> rfl

theorem isr_duty_timer_eq (s : State) : isr_duty_timer s =
    { s with duty_timer := if s.duty_timer = 20 then 0 else s.duty_timer,
             duty_f := if s.duty_timer = 20 then 1 else s.duty_f } := by
  unfold isr_duty_timer; split_ifs <;> rfl

theorem isr_duty_inc_eq (s : State) : isr_duty_inc s =
    { s with duty_inc := if s.duty_inc = 15 then 0 else s.duty_inc,
             duty_inc_f := if s.duty_inc = 15 then 1 else s.duty_inc_f } := by
  unfold isr_duty_inc; split_ifs <;> rfl

theorem isr_dir_timer_eq (s : State) : isr_dir_timer s =
    { s with dir_timer := if s.dir_timer = 100 then 0 else s.dir_timer,
             dir_deadt := if s.dir_timer = 100 then 1 else s.dir_deadt } := by
  unfold isr_dir_timer; split_ifs <;> rfl

theorem isr_bt1_eq (s : State) : isr_bt1 s =
    { s with BT1_timer := if s.BT1_f ≠ 0 then
                            (if u16 (s.BT1_timer + 1) = 1500 then 0 else u16 (s.BT1_timer + 1))
                          else s.BT1_timer,
             BT1_hold_f := if s.BT1_f ≠ 0 ∧ u16 (s.BT1_timer + 1) = 1500 then 1
                           else s.BT1_hold_f,
             PORTC := if s.BT1_f ≠ 0 ∧ u16 (s.BT1_timer + 1) = 1500 then s.PORTC ||| Y_LED
                      else s.PORTC } := by
  cases s
  unfold isr_bt1
  split_ifs <;> simp_all

theorem isr_bt2_eq (s : State) : isr_bt2 s =
    { s with BT2_timer := if s.BT2_f ≠ 0 then u16 (s.BT2_timer + 1) else s.BT2_timer,
             BT2_hold_f := if s.BT2_f ≠ 0 ∧ u16 (s.BT2_timer + 1) = 1000 then 1
                           else s.BT2_hold_f } := by
  cases s
  unfold isr_bt2
  split_ifs <;> simp_all

theorem isr_blink_eq (s : State) : isr_blink s =
    { s with blink_timer := if s.RLED_blink ≠ 0 then
                              (if u16 (s.blink_timer + 1) ≥ 200 then 0
                               else u16 (s.blink_timer + 1))
                            else s.blink_timer,
             PORTC := if s.RLED_blink ≠ 0 ∧ u16 (s.blink_timer + 1) ≥ 200
                      then s.PORTC ^^^ Y_LED else s.PORTC } := by
  cases s
  unfold isr_blink
  split_ifs <;> simp_all

/-- The handler does not write `motor_en`. -/
theorem ISR_motor_en (s : State) : (ISR_TIMER2_OVF s).motor_en = s.motor_en := by
  simp [ISR_blocks, isr_counters_eq, isr_gled_eq, isr_debounce_eq, isr_duty_timer_eq,
    isr_duty_inc_eq, isr_dir_timer_eq, isr_bt1_eq, isr_bt2_eq, isr_blink_eq]

theorem ISR_debounce (s : State) : (ISR_TIMER2_OVF s).debounce =
    if s.debounce < 20 then u16 (s.debounce + 1) else if s.debounce = 20 then 0
    else s.debounce := by
  simp [ISR_blocks, isr_counters_eq, isr_gled_eq, isr_debounce_eq, isr_duty_timer_eq,
    isr_duty_inc_eq, isr_dir_timer_eq, isr_bt1_eq, isr_bt2_eq, isr_blink_eq]

theorem ISR_duty_f (s : State) : (ISR_TIMER2_OVF s).duty_f =
    if u16 (s.duty_timer + 1) = 20 then 1 else s.duty_f := by
  simp [ISR_blocks, isr_counters_eq, isr_gled_eq, isr_debounce_eq, isr_duty_timer_eq,
    isr_duty_inc_eq, isr_dir_timer_eq, isr_bt1_eq, isr_bt2_eq, isr_blink_eq]

/-! ## Button 1 classifier -/

/-- With the debounce flag clear `READ_BT1` is the identity. -/
theorem READ_BT1_db_clear (PINC : Nat) (s : State) (h : s.db_flag = 0) :
    READ_BT1 PINC s = s := by
  unfold READ_BT1
  simp [h]

/-- Whenever `READ_BT1` changes the state it consumes the debounce flag. -/
theorem READ_BT1_changed_db_flag (PINC : Nat) (s : State) (h : READ_BT1 PINC s ≠ s) :
    (READ_BT1 PINC s).db_flag = 0 := by
  unfold READ_BT1 at h ⊢
  simp only [] at h ⊢
  split_ifs at h ⊢ <;> first | rfl | exact absurd rfl h

/-- The handler and the other four loop functions do not write `motor_en`. -/
theorem motor_enable_motor_en (s : State) : (motor_enable s).motor_en = s.motor_en := by
  unfold motor_enable
  simp only []
  split_ifs <;> rfl

theorem dir_enable_motor_en (s : State) : (dir_enable s).motor_en = s.motor_en := by
  unfold dir_enable
  simp only []
  split_ifs <;> rfl

theorem READ_BT2_motor_en (PINC : Nat) (s : State) :
    (READ_BT2 PINC s).motor_en = s.motor_en := by
  unfold READ_BT2
  simp only []
  split_ifs <;> rfl

theorem PWM_enable_motor_en (s : State) : (PWM_enable s).motor_en = s.motor_en := by
  unfold PWM_enable
  simp only []
  split_ifs <;> rfl

theorem READ_BT2_dir_en (PINC : Nat) (s : State) :
    (READ_BT2 PINC s).dir_en = s.dir_en := by
  unfold READ_BT2
  simp only []
  split_ifs <;> rfl

theorem dir_enable_dir_en_clear (s : State) (h : s.dir_en = 0) :
    (dir_enable s).dir_en = 0 := by
  unfold dir_enable
  simp [h]

theorem lnot_ne_self (x : Nat) : lnot x ≠ x := by
  unfold lnot
  split_ifs with h <;> omega

theorem lnot_lnot_ne_zero (x : Nat) : lnot (lnot x) ≠ 0 ↔ x ≠ 0 := by
  unfold lnot
  by_cases h : x = 0 <;> simp [h]

theorem lnot_ne_zero (x : Nat) : lnot x ≠ 0 ↔ x = 0 := by
  unfold lnot
  by_cases h : x = 0 <;> simp [h]

theorem lnot_eq_zero (x : Nat) : lnot x = 0 ↔ x ≠ 0 := by
  unfold lnot
  by_cases h : x = 0 <;> simp [h]

/-- Exact effect of `READ_BT1` on `motor_en`. -/
theorem READ_BT1_motor_en (PINC : Nat) (s : State) :
    (READ_BT1 PINC s).motor_en =
      if bt1_released PINC ∧ s.last_button_state = 1 ∧ s.BT1_hold_f = 0 ∧ s.db_flag ≠ 0
      then lnot s.motor_en else s.motor_en := by
  unfold READ_BT1 bt1_released
  simp only [ne_eq, lnot_eq_zero, lnot_ne_zero, not_not]
  split_ifs <;> simp_all [lnot_ne_self, (lnot_ne_self _).symm]

/-- Exact effect of `READ_BT1` on `dir_en`. -/
theorem READ_BT1_dir_en (PINC : Nat) (s : State) :
    (READ_BT1 PINC s).dir_en =
      if bt1_released PINC ∧ s.last_button_state = 1 ∧ s.BT1_hold_f ≠ 0 ∧ s.motor_en ≠ 0
        ∧ s.db_flag ≠ 0
      then lnot s.dir_en else s.dir_en := by
  unfold READ_BT1 bt1_released
  simp only [ne_eq, lnot_eq_zero, lnot_ne_zero, not_not]
  split_ifs <;> simp_all [lnot_ne_self, (lnot_ne_self _).symm]

/-- The handler does not write `dir_en`. -/
theorem ISR_dir_en (s : State) : (ISR_TIMER2_OVF s).dir_en = s.dir_en := by
  simp [ISR_blocks, isr_counters_eq, isr_gled_eq, isr_debounce_eq, isr_duty_timer_eq,
    isr_duty_inc_eq, isr_dir_timer_eq, isr_bt1_eq, isr_bt2_eq, isr_blink_eq]

/-- Claim C11: with `db_flag` clear `READ_BT1` leaves the whole state unchanged
for every button-1 level (so `BT1_f`, `BT1_hold_f`, `BT1_timer`,
`last_button_state`, `motor_en`, `dir_en` and `PORTC` in particular), and in
every state, if `READ_BT1` changes anything at all, `db_flag` is clear on
return. -/
theorem C11_debounce_gate_button1 (PINC : Nat) (s : State) :
    (s.db_flag = 0 → READ_BT1 PINC s = s) ∧
    (READ_BT1 PINC s ≠ s → (READ_BT1 PINC s).db_flag = 0) ∧
    (((READ_BT1 PINC s).BT1_f ≠ s.BT1_f ∨ (READ_BT1 PINC s).BT1_hold_f ≠ s.BT1_hold_f ∨
      (READ_BT1 PINC s).BT1_timer ≠ s.BT1_timer ∨
      (READ_BT1 PINC s).last_button_state ≠ s.last_button_state ∨
      (READ_BT1 PINC s).motor_en ≠ s.motor_en ∨ (READ_BT1 PINC s).dir_en ≠ s.dir_en ∨
      (READ_BT1 PINC s).PORTC ≠ s.PORTC) → (READ_BT1 PINC s).db_flag = 0) := by
  refine ⟨READ_BT1_db_clear PINC s, READ_BT1_changed_db_flag PINC s, ?_⟩
  intro h
  apply READ_BT1_changed_db_flag
  intro heq
  rw [heq] at h
  simp at h

/-- Claim C11 applied: in the reset state (flag clear) a press is ignored, and
the accepted press in `pressed_short` after a release consumes the flag. -/
theorem C11_debounce_gate_button1_witness :
    (reset.db_flag = 0 ∧ READ_BT1 pinc_bt1 reset = reset) ∧
    (READ_BT1 pinc_released pressed_short ≠ pressed_short ∧
      (READ_BT1 pinc_released pressed_short).db_flag = 0) :=
  ⟨⟨by decide, (C11_debounce_gate_button1 pinc_bt1 reset).1 (by decide)⟩,
   ⟨by decide, (C11_debounce_gate_button1 pinc_released pressed_short).2.1 (by decide)⟩⟩

/-- Claim C13: `READ_BT1` changes `motor_en` if and only if the button is
released, `last_button_state = 1`, `BT1_hold_f` is clear and `db_flag` is set;
then `motor_en` becomes its logical negation, `BT1_f = 0`,
`last_button_state = 0`, `db_flag = 0` and `dir_en` is unchanged.  The tick
handler, `motor_enable`, `dir_enable`, `READ_BT2` and `PWM_enable` never change
`motor_en`. -/
theorem C13_tap_release_toggles_motor_en (PINC PINC2 : Nat) (s : State) :
    ((READ_BT1 PINC s).motor_en ≠ s.motor_en ↔
      (bt1_released PINC ∧ s.last_button_state = 1 ∧ s.BT1_hold_f = 0 ∧ s.db_flag ≠ 0)) ∧
    ((bt1_released PINC ∧ s.last_button_state = 1 ∧ s.BT1_hold_f = 0 ∧ s.db_flag ≠ 0) →
      (READ_BT1 PINC s).motor_en = lnot s.motor_en ∧ (READ_BT1 PINC s).BT1_f = 0 ∧
      (READ_BT1 PINC s).last_button_state = 0 ∧ (READ_BT1 PINC s).db_flag = 0 ∧
      (READ_BT1 PINC s).dir_en = s.dir_en) ∧
    (ISR_TIMER2_OVF s).motor_en = s.motor_en ∧
    (motor_enable s).motor_en = s.motor_en ∧
    (dir_enable s).motor_en = s.motor_en ∧
    (READ_BT2 PINC2 s).motor_en = s.motor_en ∧
    (PWM_enable s).motor_en = s.motor_en := by
  refine ⟨?_, ?_, ISR_motor_en s, motor_enable_motor_en s, dir_enable_motor_en s,
    READ_BT2_motor_en PINC2 s, PWM_enable_motor_en s⟩
  · rw [READ_BT1_motor_en]
    split_ifs with h
    · simp [h, lnot_ne_self]
    · simp [h]
  · intro h
    have hm := READ_BT1_motor_en PINC s
    have hd := READ_BT1_dir_en PINC s
    rw [if_pos h] at hm
    rw [if_neg (by intro hc; exact hc.2.2.1 h.2.2.1)] at hd
    refine ⟨hm, ?_, ?_, ?_, hd⟩
    all_goals
      obtain ⟨h1, h2, h3, h4⟩ := h
      unfold bt1_released at h1
      unfold READ_BT1
      simp [h1, h2, h3, h4, lnot]

/-- Claim C13 applied to a short press of button 1 with the motor stopped: the
release turns the motor on. -/
theorem C13_tap_release_toggles_motor_en_witness :
    (bt1_released pinc_released ∧ pressed_short.last_button_state = 1 ∧
      pressed_short.BT1_hold_f = 0 ∧ pressed_short.db_flag ≠ 0) ∧
    ((READ_BT1 pinc_released pressed_short).motor_en = lnot pressed_short.motor_en ∧
      (READ_BT1 pinc_released pressed_short).BT1_f = 0 ∧
      (READ_BT1 pinc_released pressed_short).last_button_state = 0 ∧
      (READ_BT1 pinc_released pressed_short).db_flag = 0 ∧
      (READ_BT1 pinc_released pressed_short).dir_en = pressed_short.dir_en) :=
  ⟨by decide,
   (C13_tap_release_toggles_motor_en pinc_released pinc_released pressed_short).2.1
     (by decide)⟩

/-- Exact effect of an accepted hold release of button 1 with the motor on. -/
theorem READ_BT1_hold_release (PINC : Nat) (s : State) (hrel : bt1_released PINC)
    (hl : s.last_button_state = 1) (hh : s.BT1_hold_f ≠ 0) (hm : s.motor_en ≠ 0)
    (hd : s.db_flag ≠ 0) :
    READ_BT1 PINC s =
      { s with PORTC := (s.PORTC &&& cpl8 Y_LED) ||| R_LED, BT1_f := 0, BT1_hold_f := 0,
               last_button_state := 0, dir_en := lnot s.dir_en, db_flag := 0 } := by
  unfold bt1_released at hrel
  unfold READ_BT1
  simp [hrel, hl, hh, hm, hd, lnot]

/-- Claim C14: in every state with `last_button_state = 1`, `BT1_hold_f` set,
`motor_en` non-zero and `db_flag` set, `READ_BT1` with button 1 released
replaces `dir_en` by its logical negation, clears `BT1_hold_f` and `BT1_f`,
sets `last_button_state = 0` and `db_flag = 0`, clears the `Y_LED` bit and sets
the `R_LED` bit of `PORTC`, and leaves `motor_en` unchanged. -/
theorem C14_hold_release_toggles_direction (PINC : Nat) (s : State)
    (hrel : bt1_released PINC) (hl : s.last_button_state = 1) (hh : s.BT1_hold_f ≠ 0)
    (hm : s.motor_en ≠ 0) (hd : s.db_flag ≠ 0) :
    (READ_BT1 PINC s).dir_en = lnot s.dir_en ∧
    (READ_BT1 PINC s).BT1_hold_f = 0 ∧ (READ_BT1 PINC s).BT1_f = 0 ∧
    (READ_BT1 PINC s).last_button_state = 0 ∧ (READ_BT1 PINC s).db_flag = 0 ∧
    line (READ_BT1 PINC s).PORTC PC1 = false ∧ line (READ_BT1 PINC s).PORTC PC2 = true ∧
    (READ_BT1 PINC s).motor_en = s.motor_en := by
  rw [READ_BT1_hold_release PINC s hrel hl hh hm hd]
  refine ⟨rfl, rfl, rfl, rfl, rfl, ?_, ?_, rfl⟩
  · have h1 : Nat.testBit 253 1 = false := by decide
    have h2 : Nat.testBit 4 1 = false := by decide
    simp [line, cpl8, Y_LED, R_LED, PC1, PC2, Nat.testBit_lor, Nat.testBit_land, h1, h2]
  · have h3 : Nat.testBit 4 2 = true := by decide
    simp [line, cpl8, Y_LED, R_LED, PC1, PC2, Nat.testBit_lor, Nat.testBit_land, h3]

/-- Claim C14 applied to the running motor with button 1 held past the
threshold and then released. -/
theorem C14_hold_release_toggles_direction_witness :
    (bt1_released pinc_released ∧ held_while_running.last_button_state = 1 ∧
      held_while_running.BT1_hold_f ≠ 0 ∧ held_while_running.motor_en ≠ 0 ∧
      held_while_running.db_flag ≠ 0) ∧
    ((READ_BT1 pinc_released held_while_running).dir_en = lnot held_while_running.dir_en ∧
    (READ_BT1 pinc_released held_while_running).BT1_hold_f = 0 ∧
    (READ_BT1 pinc_released held_while_running).BT1_f = 0 ∧
    (READ_BT1 pinc_released held_while_running).last_button_state = 0 ∧
    (READ_BT1 pinc_released held_while_running).db_flag = 0 ∧
    line (READ_BT1 pinc_released held_while_running).PORTC PC1 = false ∧
    line (READ_BT1 pinc_released held_while_running).PORTC PC2 = true ∧
    (READ_BT1 pinc_released held_while_running).motor_en = held_while_running.motor_en) :=
  ⟨by decide,
   C14_hold_release_toggles_direction pinc_released held_while_running
    (by decide) (by decide) (by decide) (by decide) (by decide)⟩

/-- Claim C15: if `READ_BT1` changes `dir_en` then on entry `motor_en` was
non-zero, the button released, `last_button_state = 1`, `BT1_hold_f` set and
`db_flag` set; with `motor_en = 0` it never changes `dir_en`; and the tick
handler, `motor_enable`, `dir_enable`, `READ_BT2` and `PWM_enable` never take
`dir_en` from clear to set. -/
theorem C15_flip_starts_only_with_motor_enabled (PINC PINC2 : Nat) (s : State) :
    ((READ_BT1 PINC s).dir_en ≠ s.dir_en →
      s.motor_en ≠ 0 ∧ bt1_released PINC ∧ s.last_button_state = 1 ∧ s.BT1_hold_f ≠ 0 ∧
      s.db_flag ≠ 0) ∧
    (s.motor_en = 0 → (READ_BT1 PINC s).dir_en = s.dir_en) ∧
    (s.dir_en = 0 →
      (ISR_TIMER2_OVF s).dir_en = 0 ∧ (motor_enable s).dir_en = 0 ∧
      (dir_enable s).dir_en = 0 ∧ (READ_BT2 PINC2 s).dir_en = 0 ∧
      (PWM_enable s).dir_en = 0) := by
  refine ⟨?_, ?_, ?_⟩
  · intro h
    rw [READ_BT1_dir_en] at h
    split_ifs at h with hc
    · exact ⟨hc.2.2.2.1, hc.1, hc.2.1, hc.2.2.1, hc.2.2.2.2⟩
    · exact absurd rfl h
  · intro hm
    rw [READ_BT1_dir_en, if_neg]
    intro hc
    exact hc.2.2.2.1 hm
  · intro h
    refine ⟨?_, ?_, dir_enable_dir_en_clear s h, ?_, ?_⟩
    · rw [ISR_dir_en, h]
    · rw [motor_enable_dir_en, h]
    · rw [READ_BT2_dir_en, h]
    · rw [PWM_enable_dir_en, h]

/-- Claim C15 applied: the hold release in `held_while_running` changes
`dir_en` (motor on), the one in `held_while_stopped` does not (motor off), and
no other operation sets `dir_en` from the clear state `running`. -/
theorem C15_flip_starts_only_with_motor_enabled_witness :
    ((READ_BT1 pinc_released held_while_running).dir_en ≠ held_while_running.dir_en ∧
      held_while_running.motor_en ≠ 0) ∧
    (held_while_stopped.motor_en = 0 ∧
      (READ_BT1 pinc_released held_while_stopped).dir_en = held_while_stopped.dir_en) ∧
    (running.dir_en = 0 ∧ (dir_enable running).dir_en = 0) :=
  ⟨⟨by decide,
    ((C15_flip_starts_only_with_motor_enabled pinc_released pinc_released
      held_while_running).1 (by decide)).1⟩,
   ⟨by decide,
    (C15_flip_starts_only_with_motor_enabled pinc_released pinc_released
      held_while_stopped).2.1 (by decide)⟩,
   ⟨by decide,
    ((C15_flip_starts_only_with_motor_enabled pinc_released pinc_released
      running).2.2 (by decide)).2.2.1⟩⟩

/-- Claim C16: in every state with `BT1_hold_f` set, for every button-1 level
and every value of `db_flag`, `READ_BT1` leaves `motor_en` unchanged. -/
theorem C16_hold_supersedes_tap (PINC : Nat) (s : State) (hh : s.BT1_hold_f ≠ 0) :
    (READ_BT1 PINC s).motor_en = s.motor_en := by
  rw [READ_BT1_motor_en, if_neg]
  intro hc
  exact hh hc.2.2.1

/-- Claim C16 applied to the hold release with the motor running. -/
theorem C16_hold_supersedes_tap_witness :
    held_while_running.BT1_hold_f ≠ 0 ∧
    (READ_BT1 pinc_released held_while_running).motor_en = held_while_running.motor_en :=
  ⟨by decide, C16_hold_supersedes_tap pinc_released held_while_running (by decide)⟩

/-- Claim C20: for every state and every button-1 level, calling `READ_BT1`
twice in a row with the same level, with no tick in between, gives exactly the
state the first call produced. -/
theorem C20_READ_BT1_idempotent (PINC : Nat) (s : State) :
    READ_BT1 PINC (READ_BT1 PINC s) = READ_BT1 PINC s := by
  by_cases h : READ_BT1 PINC s = s
  · rw [h, h]
  · exact READ_BT1_db_clear PINC _ (READ_BT1_changed_db_flag PINC s h)

/-! ## Ramp -/

/-- The handler does not write `duty`. -/
theorem ISR_duty (s : State) : (ISR_TIMER2_OVF s).duty = s.duty := by
  simp [ISR_blocks, isr_counters_eq, isr_gled_eq, isr_debounce_eq, isr_duty_timer_eq,
    isr_duty_inc_eq, isr_dir_timer_eq, isr_bt1_eq, isr_bt2_eq, isr_blink_eq]

/-- Effect of the handler on the ramp cadence counter. -/
theorem ISR_duty_timer (s : State) : (ISR_TIMER2_OVF s).duty_timer =
    if u16 (s.duty_timer + 1) = 20 then 0 else u16 (s.duty_timer + 1) := by
  simp [ISR_blocks, isr_counters_eq, isr_gled_eq, isr_debounce_eq, isr_duty_timer_eq,
    isr_duty_inc_eq, isr_dir_timer_eq, isr_bt1_eq, isr_bt2_eq, isr_blink_eq]

/-- Ticks leave `motor_en` alone. -/
theorem ticks_motor_en (n : Nat) (s : State) :
    (ISR_TIMER2_OVF^[n] s).motor_en = s.motor_en := by
  induction n with
  | zero => rfl
  | succ k ih => rw [Function.iterate_succ_apply', ISR_motor_en, ih]

/-- Ticks leave `duty` alone. -/
theorem ticks_duty (n : Nat) (s : State) : (ISR_TIMER2_OVF^[n] s).duty = s.duty := by
  induction n with
  | zero => rfl
  | succ k ih => rw [Function.iterate_succ_apply', ISR_duty, ih]

/-- The ramp cadence counter runs modulo 20. -/
theorem ticks_duty_timer (n : Nat) (s : State) (h : s.duty_timer < 20) :
    (ISR_TIMER2_OVF^[n] s).duty_timer = (s.duty_timer + n) % 20 := by
  induction n with
  | zero => simp; omega
  | succ k ih =>
    rw [Function.iterate_succ_apply', ISR_duty_timer, ih]
    unfold u16
    split_ifs <;> omega

/-- Once the cadence counter has passed 20 the ramp flag is raised (the handler
never clears it). -/
theorem ticks_duty_f (n : Nat) (s : State) (h : s.duty_timer < 20)
    (hn : 20 ≤ s.duty_timer + n) : (ISR_TIMER2_OVF^[n] s).duty_f = 1 := by
  induction n with
  | zero => omega
  | succ k ih =>
    rw [Function.iterate_succ_apply', ISR_duty_f, ticks_duty_timer k s h]
    unfold u16
    split_ifs with hc
    · rfl
    · apply ih
      omega

/-- The ramp does not write the cadence counter. -/
theorem motor_enable_duty_timer (s : State) :
    (motor_enable s).duty_timer = s.duty_timer := by
  unfold motor_enable
  simp only []
  split_ifs <;> rfl

/-- Exact effect of a due ramp step on `duty`. -/
theorem motor_enable_duty_due (s : State) (hf : s.duty_f ≠ 0) (hd : s.duty < 256) :
    (motor_enable s).duty =
      if s.motor_en ≠ 0 then (if s.duty < 100 then min (s.duty + 5) 100 else s.duty)
      else s.duty - 1 := by
  unfold motor_enable lnot u8 duty_in
  by_cases hm : s.motor_en = 0 <;> simp [hm, hf]
  all_goals (try split_ifs)
  all_goals (try simp)
  all_goals (try omega)

/-- Invariants and duty of one ramp period. -/
theorem ramp_step_spec (s : State) (ht : s.duty_timer < 20) (hd : s.duty < 256) :
    (ramp_step s).motor_en = s.motor_en ∧ (ramp_step s).duty_timer < 20 ∧
    (ramp_step s).duty =
      if s.motor_en ≠ 0 then (if s.duty < 100 then min (s.duty + 5) 100 else s.duty)
      else s.duty - 1 := by
  unfold ramp_step
  have hf : (ISR_TIMER2_OVF^[20] s).duty_f ≠ 0 := by
    rw [ticks_duty_f 20 s ht (by omega)]; decide
  have hd2 : (ISR_TIMER2_OVF^[20] s).duty < 256 := by rw [ticks_duty]; exact hd
  refine ⟨?_, ?_, ?_⟩
  · rw [motor_enable_motor_en, ticks_motor_en]
  · rw [motor_enable_duty_timer, ticks_duty_timer 20 s ht]; omega
  · rw [motor_enable_duty_due _ hf hd2, ticks_motor_en, ticks_duty]

/-- Soft start: duty after `n` ramp periods from duty 0. -/
theorem ramp_up_iterate (n : Nat) (s : State) (hm : s.motor_en ≠ 0) (hd : s.duty = 0)
    (ht : s.duty_timer < 20) :
    (ramp_step^[n] s).motor_en = s.motor_en ∧ (ramp_step^[n] s).duty_timer < 20 ∧
    (ramp_step^[n] s).duty = min (5 * n) 100 := by
  induction n with
  | zero => simp [hd, ht]
  | succ k ih =>
    obtain ⟨h1, h2, h3⟩ := ih
    rw [Function.iterate_succ_apply']
    obtain ⟨g1, g2, g3⟩ := ramp_step_spec (ramp_step^[k] s) h2 (by rw [h3]; omega)
    refine ⟨by rw [g1, h1], g2, ?_⟩
    rw [g3, h1, h3, if_pos hm]
    split_ifs <;> omega

/-- Soft stop: duty after `n` ramp periods. -/
theorem ramp_down_iterate (n : Nat) (s : State) (hm : s.motor_en = 0) (hd : s.duty < 256)
    (ht : s.duty_timer < 20) :
    (ramp_step^[n] s).motor_en = 0 ∧ (ramp_step^[n] s).duty_timer < 20 ∧
    (ramp_step^[n] s).duty = s.duty - n := by
  induction n with
  | zero => simp [hm, ht]
  | succ k ih =>
    obtain ⟨h1, h2, h3⟩ := ih
    rw [Function.iterate_succ_apply']
    obtain ⟨g1, g2, g3⟩ := ramp_step_spec (ramp_step^[k] s) h2 (by rw [h3]; omega)
    refine ⟨by rw [g1, h1], g2, ?_⟩
    rw [g3, h1, h3]
    simp
    omega

/-- The cadence counter stays below 20 along every execution that starts with
it below 20 (as the reset state does): only the handler writes it. -/
theorem run_duty_timer_lt (ops : List Op) (s : State) (h : s.duty_timer < 20) :
    (run s ops).duty_timer < 20 := by
  induction ops generalizing s with
  | nil => exact h
  | cons o rest ih =>
    have hstep : (step s o).duty_timer < 20 := by
      cases o with
      | tick =>
        show (ISR_TIMER2_OVF s).duty_timer < 20
        rw [ISR_duty_timer]; unfold u16; split_ifs <;> omega
      | read_bt1 p =>
        show (READ_BT1 p s).duty_timer < 20
        unfold READ_BT1; simp only []; split_ifs <;> exact h
      | motor =>
        show (motor_enable s).duty_timer < 20
        rw [motor_enable_duty_timer]; exact h
      | dir =>
        show (dir_enable s).duty_timer < 20
        unfold dir_enable; simp only []; split_ifs <;> exact h
      | read_bt2 p =>
        show (READ_BT2 p s).duty_timer < 20
        unfold READ_BT2; simp only []; split_ifs <;> exact h
      | pwm =>
        show (PWM_enable s).duty_timer < 20
        unfold PWM_enable; simp only []; split_ifs <;> exact h
    exact ih (step s o) hstep

/-- Claim C17: with `motor_en` non-zero, `motor_enable` (a) when `duty_f` is set
and `duty < 100` sets `duty` to `min (duty + 5) 100` and writes that value to
`OCR0A` and `OCR0B`; (b) when `duty ≥ 100` or `duty_f` is clear leaves `duty`,
`OCR0A` and `OCR0B` unchanged; in every case `duty_f` is clear on return, and a
duty below 100 never ends above 100. -/
theorem C17_ramp_up_step (s : State) (hm : s.motor_en ≠ 0) :
    (s.duty_f ≠ 0 ∧ s.duty < 100 →
      (motor_enable s).duty = min (s.duty + 5) 100 ∧
      (motor_enable s).OCR0A = min (s.duty + 5) 100 ∧
      (motor_enable s).OCR0B = min (s.duty + 5) 100) ∧
    (100 ≤ s.duty ∨ s.duty_f = 0 →
      (motor_enable s).duty = s.duty ∧ (motor_enable s).OCR0A = s.OCR0A ∧
      (motor_enable s).OCR0B = s.OCR0B) ∧
    (motor_enable s).duty_f = 0 ∧
    (s.duty < 100 → (motor_enable s).duty ≤ 100) := by
  unfold motor_enable lnot u8 duty_in
  by_cases hf : s.duty_f = 0 <;> by_cases hd : s.duty < 100 <;> simp [hm, hf, hd]
  all_goals (try split_ifs)
  all_goals (try simp)
  all_goals (try omega)

/-- Claim C17 applied to a soft start at duty 40 with a ramp step due. -/
theorem C17_ramp_up_step_witness :
    ramping_up.motor_en ≠ 0 ∧ (ramping_up.duty_f ≠ 0 ∧ ramping_up.duty < 100) ∧
    ((motor_enable ramping_up).duty = min (ramping_up.duty + 5) 100 ∧
      (motor_enable ramping_up).OCR0A = min (ramping_up.duty + 5) 100 ∧
      (motor_enable ramping_up).OCR0B = min (ramping_up.duty + 5) 100) :=
  ⟨by decide, by decide, (C17_ramp_up_step ramping_up (by decide)).1 (by decide)⟩

/-- Claim C18: with `motor_en = 0` and `duty_f` set (and `duty` an 8-bit
value), `motor_enable` sets `duty` to `duty - 1` and writes it to `OCR0A` and
`OCR0B` when `duty > 0`, and leaves `duty` at 0 when `duty = 0`.  Consequently,
counting a ramp-down step as the twenty ticks of the ramp cadence followed by
`motor_enable` (cadence counter in its range, below 20), after `n` steps the
duty is `duty - n` truncated at 0: `duty` steps reach 0 and every further step
keeps 0. -/
theorem C18_ramp_down_step (s : State) (hm : s.motor_en = 0) (hf : s.duty_f ≠ 0)
    (hd : s.duty < 256) :
    (0 < s.duty →
      (motor_enable s).duty = s.duty - 1 ∧ (motor_enable s).OCR0A = s.duty - 1 ∧
      (motor_enable s).OCR0B = s.duty - 1) ∧
    (s.duty = 0 → (motor_enable s).duty = 0) ∧
    (s.duty_timer < 20 →
      (∀ n, (ramp_step^[n] s).duty = s.duty - n) ∧
      (ramp_step^[s.duty] s).duty = 0 ∧
      (∀ k, (ramp_step^[s.duty + k] s).duty = 0)) := by
  refine ⟨?_, ?_, ?_⟩
  · intro h0
    unfold motor_enable lnot u8
    simp [hm, hf, h0]
    omega
  · intro h0
    unfold motor_enable lnot u8
    simp [hm, hf, h0]
  · intro ht
    have key := fun n => (ramp_down_iterate n s hm hd ht).2.2
    refine ⟨key, ?_, ?_⟩
    · rw [key]; omega
    · intro k; rw [key]; omega

/-- Claim C18 applied to a soft stop at duty 3 with a ramp step due. -/
theorem C18_ramp_down_step_witness :
    (ramping_down.motor_en = 0 ∧ ramping_down.duty_f ≠ 0 ∧ ramping_down.duty < 256 ∧
      0 < ramping_down.duty ∧ ramping_down.duty_timer < 20) ∧
    ((motor_enable ramping_down).duty = ramping_down.duty - 1 ∧
      (motor_enable ramping_down).OCR0A = ramping_down.duty - 1 ∧
      (motor_enable ramping_down).OCR0B = ramping_down.duty - 1) ∧
    (ramp_step^[ramping_down.duty] ramping_down).duty = 0 :=
  ⟨by decide,
   (C18_ramp_down_step ramping_down (by decide) (by decide) (by decide)).1 (by decide),
   ((C18_ramp_down_step ramping_down (by decide) (by decide) (by decide)).2.2
     (by decide)).2.1⟩

/-- Claim C19: starting from `duty = 0` with `motor_en` set (cadence counter in
its range, below 20), after `n` ramp steps, each being the twenty ticks in
which the handler raises `duty_f` followed by `motor_enable`, the duty is
`min (5 * n) 100`; it never exceeds 100, equals 100 exactly from `n = 20` on,
and so stays 100 in every later step. -/
theorem C19_soft_start_trajectory (s : State) (n : Nat) (hm : s.motor_en ≠ 0)
    (hd : s.duty = 0) (ht : s.duty_timer < 20) :
    (ramp_step^[n] s).duty = min (5 * n) 100 ∧
    (ramp_step^[n] s).duty ≤ 100 ∧
    ((ramp_step^[n] s).duty = 100 ↔ 20 ≤ n) := by
  have key := (ramp_up_iterate n s hm hd ht).2.2
  rw [key]
  refine ⟨rfl, by omega, by omega⟩

/-- Claim C19 applied to the motor just enabled from reset, after 3 and after
20 ramp steps. -/
theorem C19_soft_start_trajectory_witness :
    (just_enabled.motor_en ≠ 0 ∧ just_enabled.duty = 0 ∧ just_enabled.duty_timer < 20) ∧
    (ramp_step^[3] just_enabled).duty = min (5 * 3) 100 ∧
    ((ramp_step^[20] just_enabled).duty = 100 ↔ 20 ≤ 20) :=
  ⟨by decide,
   (C19_soft_start_trajectory just_enabled 3 (by decide) (by decide) (by decide)).1,
   (C19_soft_start_trajectory just_enabled 20 (by decide) (by decide) (by decide)).2.2⟩

/-! ## Debounce flag along executions -/

theorem run_append (s : State) (a b : List Op) : run s (a ++ b) = run (run s a) b := by
  unfold run
  rw [List.foldl_append]

theorem run_cons (s : State) (o : Op) (rest : List Op) :
    run s (o :: rest) = run (step s o) rest := by
  unfold run
  rw [List.foldl_cons]

/-- Running `n` ticks is iterating the handler `n` times. -/
theorem run_ticks (n : Nat) (s : State) : run s (ticks n) = ISR_TIMER2_OVF^[n] s := by
  induction n generalizing s with
  | zero => rfl
  | succ k ih =>
    have h1 : ticks (k + 1) = Op.tick :: ticks k := List.replicate_succ Op.tick k
    have h2 : step s Op.tick = ISR_TIMER2_OVF s := rfl
    rw [Function.iterate_succ_apply, h1, run_cons, h2, ih (ISR_TIMER2_OVF s)]

/-- Effect of the handler on the debounce flag. -/
theorem ISR_db_flag (s : State) : (ISR_TIMER2_OVF s).db_flag =
    if s.debounce < 20 then s.db_flag else if s.debounce = 20 then 1 else s.db_flag := by
  simp [ISR_blocks, isr_counters_eq, isr_gled_eq, isr_debounce_eq, isr_duty_timer_eq,
    isr_duty_inc_eq, isr_dir_timer_eq, isr_bt1_eq, isr_bt2_eq, isr_blink_eq]

/-- The handler does not write `last_button_state`. -/
theorem ISR_last_button_state (s : State) :
    (ISR_TIMER2_OVF s).last_button_state = s.last_button_state := by
  simp [ISR_blocks, isr_counters_eq, isr_gled_eq, isr_debounce_eq, isr_duty_timer_eq,
    isr_duty_inc_eq, isr_dir_timer_eq, isr_bt1_eq, isr_bt2_eq, isr_blink_eq]

/-- The handler does not write `BT1_f`. -/
theorem ISR_BT1_f (s : State) : (ISR_TIMER2_OVF s).BT1_f = s.BT1_f := by
  simp [ISR_blocks, isr_counters_eq, isr_gled_eq, isr_debounce_eq, isr_duty_timer_eq,
    isr_duty_inc_eq, isr_dir_timer_eq, isr_bt1_eq, isr_bt2_eq, isr_blink_eq]

/-- Effect of the handler on the hold flag of button 1. -/
theorem ISR_BT1_hold_f (s : State) : (ISR_TIMER2_OVF s).BT1_hold_f =
    if s.BT1_f ≠ 0 ∧ u16 (s.BT1_timer + 1) = 1500 then 1 else s.BT1_hold_f := by
  simp [ISR_blocks, isr_counters_eq, isr_gled_eq, isr_debounce_eq, isr_duty_timer_eq,
    isr_duty_inc_eq, isr_dir_timer_eq, isr_bt1_eq, isr_bt2_eq, isr_blink_eq]

/-- The debounce counter runs modulo 21. -/
theorem ticks_debounce (n : Nat) (s : State) (h : s.debounce ≤ 20) :
    (ISR_TIMER2_OVF^[n] s).debounce = (s.debounce + n) % 21 := by
  induction n with
  | zero => simp; omega
  | succ k ih =>
    rw [Function.iterate_succ_apply', ISR_debounce, ih]
    unfold u16
    split_ifs <;> omega

/-- Once the debounce counter has wrapped the flag is raised (the handler never
clears it). -/
theorem ticks_db_flag (n : Nat) (s : State) (h : s.debounce ≤ 20)
    (hn : 21 ≤ s.debounce + n) : (ISR_TIMER2_OVF^[n] s).db_flag = 1 := by
  induction n with
  | zero => omega
  | succ k ih =>
    rw [Function.iterate_succ_apply', ISR_db_flag, ticks_debounce k s h]
    split_ifs with h1 h2
    · apply ih; omega
    · rfl
    · omega

theorem ticks_last_button_state (n : Nat) (s : State) :
    (ISR_TIMER2_OVF^[n] s).last_button_state = s.last_button_state := by
  induction n with
  | zero => rfl
  | succ k ih => rw [Function.iterate_succ_apply', ISR_last_button_state, ih]

theorem ticks_BT1_f (n : Nat) (s : State) : (ISR_TIMER2_OVF^[n] s).BT1_f = s.BT1_f := by
  induction n with
  | zero => rfl
  | succ k ih => rw [Function.iterate_succ_apply', ISR_BT1_f, ih]

/-- While button 1 is not pressed the ticks leave its hold flag alone. -/
theorem ticks_BT1_hold_f_idle (n : Nat) (s : State) (h : s.BT1_f = 0) :
    (ISR_TIMER2_OVF^[n] s).BT1_hold_f = s.BT1_hold_f := by
  induction n with
  | zero => rfl
  | succ k ih =>
    rw [Function.iterate_succ_apply', ISR_BT1_hold_f, ticks_BT1_f, ih, if_neg]
    intro hc
    exact hc.1 h

/-- Exact effect of `READ_BT1` on `last_button_state`. -/
theorem READ_BT1_last_button_state (PINC : Nat) (s : State) :
    (READ_BT1 PINC s).last_button_state =
      if ¬ bt1_released PINC ∧ s.last_button_state = 0 ∧ s.db_flag ≠ 0 then 1
      else if bt1_released PINC ∧ s.last_button_state = 1 ∧ s.db_flag ≠ 0 ∧
          (s.BT1_hold_f = 0 ∨ s.motor_en ≠ 0) then 0
      else s.last_button_state := by
  unfold READ_BT1 bt1_released
  simp only [ne_eq, lnot_eq_zero, lnot_ne_zero, not_not]
  split_ifs <;> simp_all

/-- An accepted transition is a debounced press from Idle or a debounced
release that is a tap or a hold with the motor on. -/
theorem accepts_iff (PINC : Nat) (s : State) :
    accepts PINC s ↔
      (¬ bt1_released PINC ∧ s.last_button_state = 0 ∧ s.db_flag ≠ 0) ∨
      (bt1_released PINC ∧ s.last_button_state = 1 ∧ s.db_flag ≠ 0 ∧
        (s.BT1_hold_f = 0 ∨ s.motor_en ≠ 0)) := by
  unfold accepts
  rw [READ_BT1_last_button_state]
  split_ifs with h1 h2
  · simp [h1]
  · simp [h2]
  · simp [h1, h2]

/-- An accepting call finds the debounce flag set and leaves it clear. -/
theorem accepts_db_flag (PINC : Nat) (s : State) (h : accepts PINC s) :
    s.db_flag ≠ 0 ∧ (READ_BT1 PINC s).db_flag = 0 := by
  constructor
  · rcases (accepts_iff PINC s).1 h with h1 | h1
    · exact h1.2.2
    · exact h1.2.2.1
  · apply READ_BT1_changed_db_flag
    intro heq
    unfold accepts at h
    rw [heq] at h
    exact h rfl

/-- No operation other than a tick raises the debounce flag. -/
theorem step_db_flag_clear (o : Op) (s : State) (ho : o ≠ Op.tick) (h : s.db_flag = 0) :
    (step s o).db_flag = 0 := by
  cases o with
  | tick => exact absurd rfl ho
  | read_bt1 p =>
    show (READ_BT1 p s).db_flag = 0
    rw [READ_BT1_db_clear p s h]; exact h
  | motor =>
    show (motor_enable s).db_flag = 0
    unfold motor_enable; simp only []; split_ifs <;> exact h
  | dir =>
    show (dir_enable s).db_flag = 0
    unfold dir_enable; simp only []; split_ifs <;> exact h
  | read_bt2 p =>
    show (READ_BT2 p s).db_flag = 0
    unfold READ_BT2; simp only []; split_ifs <;> first | exact h | rfl
  | pwm =>
    show (PWM_enable s).db_flag = 0
    unfold PWM_enable; simp only []; split_ifs <;> exact h

/-- Without a tick the debounce flag stays clear. -/
theorem run_db_flag_clear (ops : List Op) (s : State) (hops : ops.count Op.tick = 0)
    (h : s.db_flag = 0) : (run s ops).db_flag = 0 := by
  induction ops generalizing s with
  | nil => exact h
  | cons o rest ih =>
    have ho : o ≠ Op.tick := by
      intro hc
      rw [hc] at hops
      simp at hops
    have hrest : rest.count Op.tick = 0 := by
      rw [List.count_cons] at hops
      omega
    exact ih (step s o) hrest (step_db_flag_clear o s ho h)

/-- When the debounce flag is set and the free-running debounce counter stands
at 20, a press from Idle is accepted, and one tick later the release is
accepted as well. -/
theorem press_then_release_one_tick_apart (x : State) (hdeb : x.debounce = 20)
    (hdb : x.db_flag ≠ 0) (hlast : x.last_button_state = 0) (hhold : x.BT1_hold_f = 0) :
    accepts pinc_bt1 x ∧
    accepts pinc_released (ISR_TIMER2_OVF (READ_BT1 pinc_bt1 x)) := by
  have hp : ¬ bt1_released pinc_bt1 := by decide
  have hr : bt1_released pinc_released := by decide
  have hq : lnot (pinc_bt1 &&& BT1) ≠ 0 := by decide
  have hpress : READ_BT1 pinc_bt1 x =
      { x with BT1_f := 1, BT1_timer := 0, db_flag := 0, last_button_state := 1 } := by
    unfold READ_BT1
    simp [hq, hlast, hdb]
  refine ⟨?_, ?_⟩
  · rw [accepts_iff]
    exact Or.inl ⟨hp, hlast, hdb⟩
  · rw [accepts_iff, hpress]
    right
    refine ⟨hr, ?_, ?_, Or.inl ?_⟩
    · rw [ISR_last_button_state]
    · rw [ISR_db_flag]
      simp [hdeb]
    · rw [ISR_BT1_hold_f]
      simp [hhold, u16]

/-- From reset, after 41 ticks a press is accepted, and after one more tick
the release is accepted. -/
theorem reset_press_then_release_one_tick_apart :
    accepts pinc_bt1 (run reset (ticks 41)) ∧
    accepts pinc_released (run (READ_BT1 pinc_bt1 (run reset (ticks 41))) [Op.tick]) := by
  have hdeb : (ISR_TIMER2_OVF^[41] reset).debounce = 20 := by
    rw [ticks_debounce 41 reset (by decide)]; decide
  have hdb : (ISR_TIMER2_OVF^[41] reset).db_flag ≠ 0 := by
    rw [ticks_db_flag 41 reset (by decide) (by decide)]; decide
  have hlast : (ISR_TIMER2_OVF^[41] reset).last_button_state = 0 := by
    rw [ticks_last_button_state]; decide
  have hhold : (ISR_TIMER2_OVF^[41] reset).BT1_hold_f = 0 := by
    rw [ticks_BT1_hold_f_idle 41 reset (by decide)]; decide
  have key := press_then_release_one_tick_apart _ hdeb hdb hlast hhold
  refine ⟨?_, ?_⟩
  · rw [run_ticks]
    exact key.1
  · have hnil : ∀ s : State, run s [] = s := fun _ => rfl
    have htick : ∀ s : State, step s Op.tick = ISR_TIMER2_OVF s := fun _ => rfl
    rw [run_ticks, run_cons, hnil, htick]
    exact key.2

/-- Claim C12 as stated fails: from reset, after 41 ticks (debounce flag set,
debounce counter at 20) `READ_BT1` accepts a press; a single tick later the
handler has raised the flag again and `READ_BT1` accepts the release.  One
tick, not twenty, lies between the two accepted transitions. -/
theorem C12_two_acceptances_one_tick_apart :
    accepts pinc_bt1 (run reset (ticks 41)) ∧
    accepts pinc_released (run (READ_BT1 pinc_bt1 (run reset (ticks 41))) [Op.tick]) ∧
    List.count Op.tick [Op.tick] < 20 :=
  ⟨reset_press_then_release_one_tick_apart.1, reset_press_then_release_one_tick_apart.2,
   by decide⟩

/-- Claim C12, amended: in every execution (from the reset state or any other
state, made of ticks and calls in any order), between two `READ_BT1` calls that
each accept a transition there is at least one tick: an acceptance clears
`db_flag` and only the handler raises it again. -/
theorem C12_acceptances_separated_by_a_tick (s0 : State) (pre mid : List Op) (p q : Nat)
    (h1 : accepts p (run s0 pre))
    (h2 : accepts q (run (READ_BT1 p (run s0 pre)) mid)) :
    1 ≤ mid.count Op.tick := by
  by_contra hc
  have hcount : mid.count Op.tick = 0 := by omega
  have hclear := (accepts_db_flag p (run s0 pre) h1).2
  have hstay := run_db_flag_clear mid _ hcount hclear
  exact (accepts_db_flag q _ h2).1 hstay


/-- Claim C12, amended, applied to the execution from reset with 41 ticks, an
accepted press, one tick and an accepted release. -/
theorem C12_acceptances_separated_by_a_tick_witness :
    accepts pinc_bt1 (run reset (ticks 41)) ∧
    accepts pinc_released (run (READ_BT1 pinc_bt1 (run reset (ticks 41))) [Op.tick]) ∧
    1 ≤ List.count Op.tick [Op.tick] :=
  ⟨reset_press_then_release_one_tick_apart.1, reset_press_then_release_one_tick_apart.2,
   C12_acceptances_separated_by_a_tick reset (ticks 41) [Op.tick] pinc_bt1 pinc_released
     reset_press_then_release_one_tick_apart.1 reset_press_then_release_one_tick_apart.2⟩

/-! ## Button 2 classifier -/

/-- Effect of `READ_BT2` when button 2 reads pressed. -/
theorem READ_BT2_pressed (PINC : Nat) (s : State) (hp : bt2_pressed PINC) :
    READ_BT2 PINC s =
      if s.BT2_f = 0 ∧ s.motor_en ≠ 0 then
        { s with BT2_f := 1, BT2_timer := 0, PORTC := s.PORTC ||| Y_LED, db_flag := 0 }
      else if s.BT2_hold_f ≠ 0 then { s with PWM_f1 := 1, RLED_blink := 1 }
      else s := by
  unfold bt2_pressed at hp
  unfold READ_BT2
  simp only [hp, lnot]
  by_cases h1 : s.BT2_f = 0 <;> by_cases h2 : s.motor_en = 0 <;>
    by_cases h3 : s.BT2_hold_f = 0 <;> simp [h1, h2, h3]

/-- Effect of `READ_BT2` when button 2 reads released. -/
theorem READ_BT2_released (PINC : Nat) (s : State) (hr : ¬ bt2_pressed PINC) :
    READ_BT2 PINC s =
      if s.BT2_f ≠ 0 then
        (if s.db_flag ≠ 0 then
          { s with PWM_f2 := 1, BT2_f := 0, db_flag := 0,
                   PORTC := if s.G_LED_timer ≠ 0 then (s.PORTC ||| Y_LED) &&& cpl8 Y_LED
                            else s.PORTC ||| Y_LED }
         else s)
      else if s.BT2_hold_f ≠ 0 then
        (if s.db_flag ≠ 0 then
          { s with PWM_f1 := 0, RLED_blink := 0, BT2_timer := 0, BT2_f := 0, db_flag := 0,
                   PORTC := s.PORTC &&& cpl8 Y_LED }
         else s)
      else s := by
  unfold bt2_pressed at hr
  unfold READ_BT2
  simp only [hr, lnot]
  by_cases h1 : s.BT2_f = 0 <;> by_cases h2 : s.db_flag = 0 <;>
    by_cases h3 : s.BT2_hold_f = 0 <;> by_cases h4 : s.G_LED_timer = 0 <;>
    simp [h1, h2, h3, h4]

/-- Two `READ_BT2` calls in a row with the same level give the state of one
call in every state but those in which the button is pressed, `BT2_f` is clear,
`motor_en` is set and `BT2_hold_f` is set while `PWM_f1` or `RLED_blink` is not
already 1. -/
theorem READ_BT2_twice_iff (PINC : Nat) (s : State) :
    READ_BT2 PINC (READ_BT2 PINC s) = READ_BT2 PINC s ↔
      ¬ (bt2_pressed PINC ∧ s.BT2_f = 0 ∧ s.motor_en ≠ 0 ∧ s.BT2_hold_f ≠ 0 ∧
          (s.PWM_f1 ≠ 1 ∨ s.RLED_blink ≠ 1)) := by
  cases s
  by_cases hp : bt2_pressed PINC
  · rw [READ_BT2_pressed PINC _ hp, READ_BT2_pressed PINC _ hp]
    simp only [hp, true_and]
    split_ifs <;> simp_all
    constructor <;> rintro ⟨h1, h2⟩ <;> exact ⟨h2.symm, h1.symm⟩
  · rw [READ_BT2_released PINC _ hp, READ_BT2_released PINC _ hp]
    simp only [hp, false_and, not_false_eq_true, iff_true]
    split_ifs <;> simp_all

/-! ## Direction round trip -/

/-- Effect of a completed toggle that observes `dir_timer ≠ 0`. -/
theorem toggle_direction_eq (s : State) (hd : s.dir_en = 0) (ht : s.dir_timer ≠ 0) :
    toggle_direction s =
      { s with PORTB := (s.PORTB ^^^ (IN1 ||| IN3)) ^^^ (IN2 ||| IN4), dir_en := 0,
               duty_f := 0, OCR0A := s.duty, OCR0B := s.duty } := by
  unfold toggle_direction dir_enable
  simp [hd, ht, lnot]

theorem xor_xor_xor_xor (x a b : Nat) : (((x ^^^ a) ^^^ b) ^^^ a) ^^^ b = x := by
  rw [Nat.xor_assoc x a b, Nat.xor_assoc (x ^^^ (a ^^^ b)) a b, Nat.xor_cancel_right]

/-- Two completed toggles, each observing `dir_timer ≠ 0`, restore `PORTB`,
leave `dir_en` clear and `duty` as it was, and leave both compare registers
equal to `duty`. -/
theorem toggle_round_trip (s : State) (hd : s.dir_en = 0) (ht : s.dir_timer ≠ 0) :
    (toggle_direction (toggle_direction s)).PORTB = s.PORTB ∧
    (toggle_direction (toggle_direction s)).dir_en = 0 ∧
    (toggle_direction (toggle_direction s)).duty = s.duty ∧
    (toggle_direction (toggle_direction s)).OCR0A = s.duty ∧
    (toggle_direction (toggle_direction s)).OCR0B = s.duty := by
  have h1 := toggle_direction_eq s hd ht
  have h2 := toggle_direction_eq (toggle_direction s) (by rw [h1]) (by rw [h1]; exact ht)
  rw [h2, h1]
  exact ⟨xor_xor_xor_xor _ _ _, rfl, rfl, rfl, rfl⟩

/-! ## Matched PWM pair -/

theorem ISR_OCR0A (s : State) : (ISR_TIMER2_OVF s).OCR0A = s.OCR0A := by
  simp [ISR_blocks, isr_counters_eq, isr_gled_eq, isr_debounce_eq, isr_duty_timer_eq,
    isr_duty_inc_eq, isr_dir_timer_eq, isr_bt1_eq, isr_bt2_eq, isr_blink_eq]

theorem ISR_OCR0B (s : State) : (ISR_TIMER2_OVF s).OCR0B = s.OCR0B := by
  simp [ISR_blocks, isr_counters_eq, isr_gled_eq, isr_debounce_eq, isr_duty_timer_eq,
    isr_duty_inc_eq, isr_dir_timer_eq, isr_bt1_eq, isr_bt2_eq, isr_blink_eq]

theorem matched_pwm_ISR (s : State) (h : matched_pwm s) :
    matched_pwm (ISR_TIMER2_OVF s) := by
  unfold matched_pwm at h ⊢
  rw [ISR_OCR0A, ISR_OCR0B, ISR_duty]
  exact h

theorem matched_pwm_READ_BT1 (PINC : Nat) (s : State) (h : matched_pwm s) :
    matched_pwm (READ_BT1 PINC s) := by
  unfold READ_BT1
  simp only []
  split_ifs <;> exact h

theorem matched_pwm_motor_enable (s : State) (h : matched_pwm s) :
    matched_pwm (motor_enable s) := by
  unfold motor_enable
  simp only []
  split_ifs <;> first | exact h | exact ⟨rfl, rfl⟩

theorem matched_pwm_dir_enable (s : State) (h : matched_pwm s) :
    matched_pwm (dir_enable s) := by
  unfold dir_enable
  simp only []
  split_ifs <;> first | exact h | exact ⟨rfl, rfl⟩

theorem matched_pwm_READ_BT2 (PINC : Nat) (s : State) (h : matched_pwm s) :
    matched_pwm (READ_BT2 PINC s) := by
  unfold READ_BT2
  simp only []
  split_ifs <;> exact h

theorem matched_pwm_PWM_enable (s : State) (h : matched_pwm s) :
    matched_pwm (PWM_enable s) := by
  unfold PWM_enable
  simp only []
  split_ifs <;> first | exact h | exact ⟨rfl, rfl⟩

theorem matched_pwm_run (ops : List Op) (s : State) (h : matched_pwm s) :
    matched_pwm (run s ops) := by
  induction ops generalizing s with
  | nil => exact h
  | cons o rest ih =>
    rw [run_cons]
    apply ih
    cases o with
    | tick => exact matched_pwm_ISR s h
    | read_bt1 p => exact matched_pwm_READ_BT1 p s h
    | motor => exact matched_pwm_motor_enable s h
    | dir => exact matched_pwm_dir_enable s h
    | read_bt2 p => exact matched_pwm_READ_BT2 p s h
    | pwm => exact matched_pwm_PWM_enable s h

/-- Claim C23: `OCR0A = OCR0B = duty` holds in the state after initialisation
and is preserved by the tick handler, `READ_BT1`, `motor_enable`,
`dir_enable`, `READ_BT2` and `PWM_enable`; hence it holds after every
operation of every execution from reset. -/
theorem C23_matched_pwm_pair (PINC1 PINC2 : Nat) (s : State) (ops : List Op) :
    matched_pwm reset ∧
    (matched_pwm s →
      matched_pwm (ISR_TIMER2_OVF s) ∧ matched_pwm (READ_BT1 PINC1 s) ∧
      matched_pwm (motor_enable s) ∧ matched_pwm (dir_enable s) ∧
      matched_pwm (READ_BT2 PINC2 s) ∧ matched_pwm (PWM_enable s)) ∧
    matched_pwm (run reset ops) := by
  have h0 : matched_pwm reset := by decide
  exact ⟨h0,
    fun h => ⟨matched_pwm_ISR s h, matched_pwm_READ_BT1 PINC1 s h,
      matched_pwm_motor_enable s h, matched_pwm_dir_enable s h,
      matched_pwm_READ_BT2 PINC2 s h, matched_pwm_PWM_enable s h⟩,
    matched_pwm_run ops reset h0⟩

/-- Claim C23 applied to the soft start at duty 40 with a ramp step due: the
step moves both channels to 45 together with the duty. -/
theorem C23_matched_pwm_pair_witness :
    matched_pwm ramping_up ∧ matched_pwm (motor_enable ramping_up) ∧
    (motor_enable ramping_up).duty = 45 :=
  ⟨by decide,
   ((C23_matched_pwm_pair pinc_released pinc_released ramping_up []).2.1 (by decide)).2.2.1,
   by decide⟩

/-! ## Hold threshold of button 1 -/

/-- Effect of the handler on the hold counter of button 1. -/
theorem ISR_BT1_timer (s : State) : (ISR_TIMER2_OVF s).BT1_timer =
    if s.BT1_f ≠ 0 then (if u16 (s.BT1_timer + 1) = 1500 then 0 else u16 (s.BT1_timer + 1))
    else s.BT1_timer := by
  simp [ISR_blocks, isr_counters_eq, isr_gled_eq, isr_debounce_eq, isr_duty_timer_eq,
    isr_duty_inc_eq, isr_dir_timer_eq, isr_bt1_eq, isr_bt2_eq, isr_blink_eq]

/-- The handler does not write `RLED_blink`. -/
theorem ISR_RLED_blink (s : State) : (ISR_TIMER2_OVF s).RLED_blink = s.RLED_blink := by
  simp [ISR_blocks, isr_counters_eq, isr_gled_eq, isr_debounce_eq, isr_duty_timer_eq,
    isr_duty_inc_eq, isr_dir_timer_eq, isr_bt1_eq, isr_bt2_eq, isr_blink_eq]

/-- Effect of the handler on the blink counter. -/
theorem ISR_blink_timer (s : State) : (ISR_TIMER2_OVF s).blink_timer =
    if s.RLED_blink ≠ 0 then
      (if u16 (s.blink_timer + 1) ≥ 200 then 0 else u16 (s.blink_timer + 1))
    else s.blink_timer := by
  simp [ISR_blocks, isr_counters_eq, isr_gled_eq, isr_debounce_eq, isr_duty_timer_eq,
    isr_duty_inc_eq, isr_dir_timer_eq, isr_bt1_eq, isr_bt2_eq, isr_blink_eq]

/-- Effect of the handler on `PORTC`: green LED toggle, yellow LED set by the
hold of button 1, yellow LED toggle by the blink, in this order. -/
theorem ISR_PORTC (s : State) : (ISR_TIMER2_OVF s).PORTC =
    let p1 := if u16 (s.G_LED_timer + 1) = 500 then s.PORTC ^^^ G_LED else s.PORTC
    let p2 := if s.BT1_f ≠ 0 ∧ u16 (s.BT1_timer + 1) = 1500 then p1 ||| Y_LED else p1
    if s.RLED_blink ≠ 0 ∧ u16 (s.blink_timer + 1) ≥ 200 then p2 ^^^ Y_LED else p2 := by
  simp [ISR_blocks, isr_counters_eq, isr_gled_eq, isr_debounce_eq, isr_duty_timer_eq,
    isr_duty_inc_eq, isr_dir_timer_eq, isr_bt1_eq, isr_bt2_eq, isr_blink_eq]

theorem ticks_RLED_blink (n : Nat) (s : State) :
    (ISR_TIMER2_OVF^[n] s).RLED_blink = s.RLED_blink := by
  induction n with
  | zero => rfl
  | succ k ih => rw [Function.iterate_succ_apply', ISR_RLED_blink, ih]

/-- While the blink is active its counter runs modulo 200. -/
theorem ticks_blink_timer (n : Nat) (s : State) (hb : s.RLED_blink ≠ 0)
    (h : s.blink_timer < 200) :
    (ISR_TIMER2_OVF^[n] s).blink_timer = (s.blink_timer + n) % 200 := by
  induction n with
  | zero => simp; omega
  | succ k ih =>
    rw [Function.iterate_succ_apply', ISR_blink_timer, ticks_RLED_blink, ih, if_pos hb]
    unfold u16
    split_ifs <;> omega

/-- While button 1 is pressed, starting from `BT1_timer = 0` with the hold flag
clear: after `n` ticks the hold counter is `n mod 1500` and the hold flag is 1
from the 1500th tick on and 0 before. -/
theorem ticks_hold_threshold (n : Nat) (s : State) (hf : s.BT1_f ≠ 0)
    (ht : s.BT1_timer = 0) (hh : s.BT1_hold_f = 0) :
    (ISR_TIMER2_OVF^[n] s).BT1_timer = n % 1500 ∧
    (ISR_TIMER2_OVF^[n] s).BT1_hold_f = if 1500 ≤ n then 1 else 0 := by
  induction n with
  | zero => simp [ht, hh]
  | succ k ih =>
    obtain ⟨h1, h2⟩ := ih
    have hf2 : (ISR_TIMER2_OVF^[k] s).BT1_f ≠ 0 := by rw [ticks_BT1_f]; exact hf
    rw [Function.iterate_succ_apply', ISR_BT1_timer, ISR_BT1_hold_f, if_pos hf2, h1, h2]
    unfold u16
    constructor
    · split_ifs <;> omega
    · split_ifs <;> first | rfl | omega

/-- On the tick that raises the hold flag of button 1 the yellow LED bit ends
set unless the blink of the continuous mode toggles it in the same tick. -/
theorem ISR_yellow_on_hold (x : State) (hf : x.BT1_f ≠ 0) (ht : x.BT1_timer = 1499) :
    (line (ISR_TIMER2_OVF x).PORTC PC1 = true ↔
      ¬ (x.RLED_blink ≠ 0 ∧ 200 ≤ u16 (x.blink_timer + 1))) := by
  have hY : Nat.testBit Y_LED PC1 = true := by decide
  have fire : x.BT1_f ≠ 0 ∧ u16 (x.BT1_timer + 1) = 1500 := ⟨hf, by rw [ht]; rfl⟩
  rw [ISR_PORTC]
  simp only []
  rw [if_pos fire]
  by_cases hb : x.RLED_blink ≠ 0 ∧ u16 (x.blink_timer + 1) ≥ 200
  · rw [if_pos hb]
    have hb2 : x.RLED_blink ≠ 0 ∧ 200 ≤ u16 (x.blink_timer + 1) := hb
    simp [line, Nat.testBit_xor, Nat.testBit_lor, hY, hb2]
  · rw [if_neg hb]
    have hb2 : ¬ (x.RLED_blink ≠ 0 ∧ 200 ≤ u16 (x.blink_timer + 1)) := hb
    simp only [line, Nat.testBit_lor, hY, Bool.or_true, true_iff]
    exact hb2
/-- Hold flag, hold counter and yellow LED over the first 1500 ticks of a press
of button 1 (`BT1_f` set, `BT1_timer = 0`, hold flag clear): the flag is set
exactly from the 1500th tick on, the counter stays below 1500, and after the
1500th tick the `Y_LED` bit is set exactly when the blink of the continuous
mode does not toggle it in the same tick, in particular when `RLED_blink` is
clear. -/
theorem hold_threshold_spec (s : State) (hf : s.BT1_f ≠ 0) (ht : s.BT1_timer = 0)
    (hh : s.BT1_hold_f = 0) :
    (∀ n, (ISR_TIMER2_OVF^[n] s).BT1_hold_f ≠ 0 ↔ 1500 ≤ n) ∧
    (ISR_TIMER2_OVF^[1499] s).BT1_hold_f = 0 ∧
    (ISR_TIMER2_OVF^[1500] s).BT1_hold_f = 1 ∧
    (∀ n, (ISR_TIMER2_OVF^[n] s).BT1_timer < 1500) ∧
    (line (ISR_TIMER2_OVF^[1500] s).PORTC PC1 = true ↔
      ¬ (s.RLED_blink ≠ 0 ∧ 200 ≤ u16 ((ISR_TIMER2_OVF^[1499] s).blink_timer + 1))) ∧
    (s.RLED_blink = 0 → line (ISR_TIMER2_OVF^[1500] s).PORTC PC1 = true) := by
  have key := fun n => ticks_hold_threshold n s hf ht hh
  have hx : ISR_TIMER2_OVF^[1500] s = ISR_TIMER2_OVF (ISR_TIMER2_OVF^[1499] s) :=
    Function.iterate_succ_apply' ISR_TIMER2_OVF 1499 s
  have hf2 : (ISR_TIMER2_OVF^[1499] s).BT1_f ≠ 0 := by rw [ticks_BT1_f]; exact hf
  have ht2 : (ISR_TIMER2_OVF^[1499] s).BT1_timer = 1499 := by rw [(key 1499).1]
  have hy := ISR_yellow_on_hold _ hf2 ht2
  rw [ticks_RLED_blink, ← hx] at hy
  refine ⟨?_, ?_, ?_, ?_, hy, fun hb => hy.2 (fun hc => hc.1 hb)⟩
  · intro n
    rw [(key n).2]
    split_ifs with h
    · exact ⟨fun _ => h, fun _ => by decide⟩
    · exact ⟨fun hc => absurd rfl hc, fun hc => absurd hc h⟩
  · rw [(key 1499).2]; rfl
  · rw [(key 1500).2]; rfl
  · intro n
    rw [(key n).1]
    omega

/-- Claim C24, evaluated on the code: with button 2 held in continuous mode and
the blink counter at 100 when the press of button 1 is accepted, the 1500th
tick raises `BT1_hold_f` (clear after 1499 ticks) but the blink block toggles
the `Y_LED` bit in the same tick, so the bit is clear, not set, after that
tick. -/
theorem C24_yellow_led_toggled_on_hold_tick :
    both_buttons_held.BT1_f ≠ 0 ∧ both_buttons_held.BT1_timer = 0 ∧
    both_buttons_held.BT1_hold_f = 0 ∧
    (ISR_TIMER2_OVF^[1499] both_buttons_held).BT1_hold_f = 0 ∧
    (ISR_TIMER2_OVF^[1500] both_buttons_held).BT1_hold_f = 1 ∧
    line (ISR_TIMER2_OVF^[1500] both_buttons_held).PORTC PC1 = false := by
  have h := hold_threshold_spec both_buttons_held (by decide) (by decide) (by decide)
  have hb : (ISR_TIMER2_OVF^[1499] both_buttons_held).blink_timer = 199 := by
    rw [ticks_blink_timer 1499 both_buttons_held (by decide) (by decide)]; decide
  refine ⟨by decide, by decide, by decide, h.2.1, h.2.2.1, ?_⟩
  have hy := h.2.2.2.2.1
  rw [hb] at hy
  have hfire : both_buttons_held.RLED_blink ≠ 0 ∧ 200 ≤ u16 (199 + 1) := by decide
  cases hl : line (ISR_TIMER2_OVF^[1500] both_buttons_held).PORTC PC1 with
  | false => rfl
  | true => exact absurd hfire (hy.1 hl)

/-! ## The stuck state of button 1 is absorbing -/

/-- In a stuck state `READ_BT1` is the identity for every input. -/
theorem READ_BT1_stuck (PINC : Nat) (s : State) (h : stuck_bt1 s) : READ_BT1 PINC s = s := by
  obtain ⟨h1, h2, h3⟩ := h
  unfold READ_BT1
  simp [h1, h2, h3, lnot]

theorem stuck_bt1_ISR (s : State) (h : stuck_bt1 s) : stuck_bt1 (ISR_TIMER2_OVF s) := by
  obtain ⟨h1, h2, h3⟩ := h
  refine ⟨by rw [ISR_last_button_state]; exact h1, ?_, by rw [ISR_motor_en]; exact h3⟩
  rw [ISR_BT1_hold_f]
  split_ifs
  · decide
  · exact h2

theorem stuck_bt1_motor_enable (s : State) (h : stuck_bt1 s) :
    stuck_bt1 (motor_enable s) := by
  unfold motor_enable
  simp only []
  split_ifs <;> exact h

theorem stuck_bt1_dir_enable (s : State) (h : stuck_bt1 s) : stuck_bt1 (dir_enable s) := by
  unfold dir_enable
  simp only []
  split_ifs <;> exact h

theorem stuck_bt1_READ_BT2 (PINC : Nat) (s : State) (h : stuck_bt1 s) :
    stuck_bt1 (READ_BT2 PINC s) := by
  unfold READ_BT2
  simp only []
  split_ifs <;> exact h

theorem stuck_bt1_PWM_enable (s : State) (h : stuck_bt1 s) : stuck_bt1 (PWM_enable s) := by
  unfold PWM_enable
  simp only []
  split_ifs <;> exact h

theorem stuck_bt1_step (o : Op) (s : State) (h : stuck_bt1 s) : stuck_bt1 (step s o) := by
  cases o with
  | tick => exact stuck_bt1_ISR s h
  | read_bt1 p =>
    show stuck_bt1 (READ_BT1 p s)
    rw [READ_BT1_stuck p s h]; exact h
  | motor => exact stuck_bt1_motor_enable s h
  | dir => exact stuck_bt1_dir_enable s h
  | read_bt2 p => exact stuck_bt1_READ_BT2 p s h
  | pwm => exact stuck_bt1_PWM_enable s h

theorem stuck_bt1_run (ops : List Op) (s : State) (h : stuck_bt1 s) :
    stuck_bt1 (run s ops) := by
  induction ops generalizing s with
  | nil => exact h
  | cons o rest ih =>
    rw [run_cons]
    exact ih _ (stuck_bt1_step o s h)

/-- In a stuck state no operation sets `dir_en`. -/
theorem stuck_bt1_step_dir_en (o : Op) (s : State) (h : stuck_bt1 s) (hd : s.dir_en = 0) :
    (step s o).dir_en = 0 := by
  cases o with
  | tick =>
    show (ISR_TIMER2_OVF s).dir_en = 0
    rw [ISR_dir_en, hd]
  | read_bt1 p =>
    show (READ_BT1 p s).dir_en = 0
    rw [READ_BT1_stuck p s h, hd]
  | motor =>
    show (motor_enable s).dir_en = 0
    rw [motor_enable_dir_en, hd]
  | dir => exact dir_enable_dir_en_clear s hd
  | read_bt2 p =>
    show (READ_BT2 p s).dir_en = 0
    rw [READ_BT2_dir_en, hd]
  | pwm =>
    show (PWM_enable s).dir_en = 0
    rw [PWM_enable_dir_en, hd]

theorem stuck_bt1_run_dir_en (ops : List Op) (s : State) (h : stuck_bt1 s)
    (hd : s.dir_en = 0) : (run s ops).dir_en = 0 := by
  induction ops generalizing s with
  | nil => exact hd
  | cons o rest ih =>
    rw [run_cons]
    exact ih _ (stuck_bt1_step o s h) (stuck_bt1_step_dir_en o s h hd)

/-- With the motor disabled `READ_BT2` never sets `BT2_f`. -/
theorem READ_BT2_no_press_when_stopped (PINC : Nat) (s : State) (hm : s.motor_en = 0)
    (hf : s.BT2_f = 0) : (READ_BT2 PINC s).BT2_f = 0 := by
  unfold READ_BT2
  simp only []
  split_ifs <;> simp_all

/-- Exact effect of `dir_enable` on `dir_en`. -/
theorem dir_enable_dir_en (s : State) :
    (dir_enable s).dir_en = if s.dir_en ≠ 0 ∧ s.dir_timer ≠ 0 then 0 else s.dir_en := by
  unfold dir_enable
  by_cases h1 : s.dir_en = 0 <;> by_cases h2 : s.dir_timer = 0 <;> simp [h1, h2]

/-- With the motor disabled a pressed `READ_BT2` call leaves `BT2_f` alone. -/
theorem READ_BT2_pressed_BT2_f_stopped (PINC : Nat) (s : State) (hm : s.motor_en = 0)
    (hp : bt2_pressed PINC) : (READ_BT2 PINC s).BT2_f = s.BT2_f := by
  rw [READ_BT2_pressed PINC s hp]
  split_ifs with h1 h2
  · exact absurd hm h1.2
  · rfl
  · rfl

/-! ## The hold flag of button 2 -/

/-- Effect of the handler on the hold flag of button 2: it can only raise it. -/
theorem ISR_BT2_hold_f (s : State) : (ISR_TIMER2_OVF s).BT2_hold_f =
    if s.BT2_f ≠ 0 ∧ u16 (s.BT2_timer + 1) = 1000 then 1 else s.BT2_hold_f := by
  simp [ISR_blocks, isr_counters_eq, isr_gled_eq, isr_debounce_eq, isr_duty_timer_eq,
    isr_duty_inc_eq, isr_dir_timer_eq, isr_bt1_eq, isr_bt2_eq, isr_blink_eq]

/-- No operation clears the hold flag of button 2. -/
theorem step_BT2_hold_f (o : Op) (s : State) (h : s.BT2_hold_f ≠ 0) :
    (step s o).BT2_hold_f ≠ 0 := by
  cases o with
  | tick =>
    show (ISR_TIMER2_OVF s).BT2_hold_f ≠ 0
    rw [ISR_BT2_hold_f]
    split_ifs
    · decide
    · exact h
  | read_bt1 p =>
    show (READ_BT1 p s).BT2_hold_f ≠ 0
    unfold READ_BT1; simp only []; split_ifs <;> exact h
  | motor =>
    show (motor_enable s).BT2_hold_f ≠ 0
    unfold motor_enable; simp only []; split_ifs <;> exact h
  | dir =>
    show (dir_enable s).BT2_hold_f ≠ 0
    unfold dir_enable; simp only []; split_ifs <;> exact h
  | read_bt2 p =>
    show (READ_BT2 p s).BT2_hold_f ≠ 0
    unfold READ_BT2; simp only []; split_ifs <;> exact h
  | pwm =>
    show (PWM_enable s).BT2_hold_f ≠ 0
    unfold PWM_enable; simp only []; split_ifs <;> exact h

theorem run_BT2_hold_f (ops : List Op) (s : State) (h : s.BT2_hold_f ≠ 0) :
    (run s ops).BT2_hold_f ≠ 0 := by
  induction ops generalizing s with
  | nil => exact h
  | cons o rest ih =>
    rw [run_cons]
    exact ih _ (step_BT2_hold_f o s h)

/-- Claim C26: in every state with `BT2_hold_f` set, the flag is still set
after the tick handler, `READ_BT1`, `motor_enable`, `dir_enable`, `READ_BT2`
and `PWM_enable`, for every button input, hence after every execution; and a
`READ_BT2` call that sees button 2 pressed with `BT2_f` already set raises
`PWM_f1` and `RLED_blink`, whatever the value of `BT2_timer`. -/
theorem C26_hold_flag_of_button2_never_cleared (PINC1 PINC2 : Nat) (s : State)
    (ops : List Op) (h : s.BT2_hold_f ≠ 0) :
    ((ISR_TIMER2_OVF s).BT2_hold_f ≠ 0 ∧ (READ_BT1 PINC1 s).BT2_hold_f ≠ 0 ∧
      (motor_enable s).BT2_hold_f ≠ 0 ∧ (dir_enable s).BT2_hold_f ≠ 0 ∧
      (READ_BT2 PINC2 s).BT2_hold_f ≠ 0 ∧ (PWM_enable s).BT2_hold_f ≠ 0) ∧
    (run s ops).BT2_hold_f ≠ 0 ∧
    (bt2_pressed PINC2 → s.BT2_f ≠ 0 → ∀ t : Nat,
      (READ_BT2 PINC2 { s with BT2_timer := t }).PWM_f1 = 1 ∧
      (READ_BT2 PINC2 { s with BT2_timer := t }).RLED_blink = 1) := by
  refine ⟨⟨step_BT2_hold_f Op.tick s h, step_BT2_hold_f (Op.read_bt1 PINC1) s h,
      step_BT2_hold_f Op.motor s h, step_BT2_hold_f Op.dir s h,
      step_BT2_hold_f (Op.read_bt2 PINC2) s h, step_BT2_hold_f Op.pwm s h⟩,
    run_BT2_hold_f ops s h, ?_⟩
  intro hp hf t
  rw [READ_BT2_pressed PINC2 _ hp]
  simp [hf, h]

/-- Claim C26 applied to the running motor after a first hold of button 2: the
flag survives a new press, and the next `READ_BT2` call with the button still
pressed enters continuous mode at once, with `BT2_timer` at 0. -/
theorem C26_hold_flag_of_button2_never_cleared_witness :
    (pressed_after_first_hold.BT2_hold_f ≠ 0 ∧ bt2_pressed pinc_bt2 ∧
      pressed_after_first_hold.BT2_f ≠ 0) ∧
    (run pressed_after_first_hold [Op.tick, Op.read_bt2 pinc_released]).BT2_hold_f ≠ 0 ∧
    ((READ_BT2 pinc_bt2 { pressed_after_first_hold with BT2_timer := 0 }).PWM_f1 = 1 ∧
      (READ_BT2 pinc_bt2 { pressed_after_first_hold with BT2_timer := 0 }).RLED_blink = 1) :=
  ⟨by decide,
   (C26_hold_flag_of_button2_never_cleared pinc_released pinc_bt2 pressed_after_first_hold
     [Op.tick, Op.read_bt2 pinc_released] (by decide)).2.1,
   (C26_hold_flag_of_button2_never_cleared pinc_released pinc_bt2 pressed_after_first_hold
     [] (by decide)).2.2 (by decide) (by decide) 0⟩

/-! ## Duty steps do not depend on a pending flip -/

theorem motor_enable_duty_indep (s : State) (d : Nat) :
    (motor_enable { s with dir_en := d }).duty = (motor_enable s).duty := by
  unfold motor_enable lnot
  by_cases hm : s.motor_en = 0 <;> by_cases hf : s.duty_f = 0 <;>
    by_cases hd : s.duty < duty_in <;> by_cases h0 : s.duty = 0 <;> simp [hm, hf, hd, h0]
  all_goals (try split_ifs)
  all_goals (try rfl)

theorem PWM_enable_duty_indep (s : State) (d : Nat) :
    (PWM_enable { s with dir_en := d }).duty = (PWM_enable s).duty := by
  unfold PWM_enable
  by_cases h1 : s.PWM_f1 = 0 <;> by_cases h2 : s.PWM_f2 = 0 <;> by_cases hi : s.duty_inc_f = 0
    <;> by_cases h0 : s.duty = 0 <;> simp [h1, h2, hi, h0]
  all_goals (try split_ifs)
  all_goals (try rfl)

theorem PWM_enable_continuous_step (s : State) (h1 : s.PWM_f1 ≠ 0) (hi : s.duty_inc_f ≠ 0)
    (h2 : s.PWM_f2 = 0) (h0 : 0 < s.duty) (hd : s.duty < 255) :
    (PWM_enable s).duty = s.duty + 1 := by
  have h0' : ¬ s.duty = 0 := by omega
  unfold PWM_enable u8 duty_in duty_max
  simp [h1, h2, hi, h0']
  all_goals (try split_ifs)
  all_goals (try simp at *)
  all_goals (try omega)

theorem PWM_enable_tap_step (s : State) (h2 : s.PWM_f2 ≠ 0)
    (h1 : s.PWM_f1 = 0 ∨ s.duty_inc_f = 0) (h0 : 0 < s.duty) (hd : s.duty + 25 ≤ 255) :
    (PWM_enable s).duty = s.duty + 25 := by
  have h0' : ¬ s.duty = 0 := by omega
  unfold PWM_enable u8 duty_in duty_max
  rcases h1 with h1 | h1 <;> simp [h1, h2, h0']
  all_goals (try split_ifs)
  all_goals (try simp at *)
  all_goals (try omega)

/-! ## Dead-time flag and pending flips -/

/-- Effect of the handler on the dead-time counter. -/
theorem ISR_dir_timer (s : State) : (ISR_TIMER2_OVF s).dir_timer =
    if u16 (s.dir_timer + 1) = 100 then 0 else u16 (s.dir_timer + 1) := by
  simp [ISR_blocks, isr_counters_eq, isr_gled_eq, isr_debounce_eq, isr_duty_timer_eq,
    isr_duty_inc_eq, isr_dir_timer_eq, isr_bt1_eq, isr_bt2_eq, isr_blink_eq]

theorem ticks_dir_en (n : Nat) (s : State) : (ISR_TIMER2_OVF^[n] s).dir_en = s.dir_en := by
  induction n with
  | zero => rfl
  | succ k ih => rw [Function.iterate_succ_apply', ISR_dir_en, ih]

/-- An accepted press: exact effect of `READ_BT1`. -/
theorem READ_BT1_press_eq (x : State) (hl : x.last_button_state = 0) (hd : x.db_flag ≠ 0) :
    READ_BT1 pinc_bt1 x =
      { x with BT1_f := 1, BT1_timer := 0, db_flag := 0, last_button_state := 1 } := by
  have hq : lnot (pinc_bt1 &&& BT1) ≠ 0 := by decide
  unfold READ_BT1
  simp [hq, hl, hd]

/-- An accepted tap release: exact effect of `READ_BT1`. -/
theorem READ_BT1_tap_eq (x : State) (hl : x.last_button_state = 1) (hh : x.BT1_hold_f = 0)
    (hd : x.db_flag ≠ 0) :
    READ_BT1 pinc_released x =
      { x with BT1_f := 0, motor_en := lnot x.motor_en, last_button_state := 0,
               db_flag := 0 } := by
  have hq : lnot (pinc_released &&& BT1) = 0 := by decide
  have hq2 : pinc_released &&& BT1 ≠ 0 := by decide
  unfold READ_BT1
  simp [hq, hq2, hl, hh, hd, lnot]

/-- After at least a debounce window, a press of the idle button is accepted. -/
theorem wait_press_spec (n : Nat) (x : State) (h : bt1_idle x) (hn : 21 ≤ x.debounce + n) :
    bt1_pressed (wait_press n x) ∧ (wait_press n x).motor_en = x.motor_en ∧
    (wait_press n x).dir_en = x.dir_en := by
  obtain ⟨h1, h2, h3, h4⟩ := h
  have hdb : (ISR_TIMER2_OVF^[n] x).db_flag ≠ 0 := by
    rw [ticks_db_flag n x h4 hn]; decide
  have hl : (ISR_TIMER2_OVF^[n] x).last_button_state = 0 := by
    rw [ticks_last_button_state]; exact h1
  unfold wait_press
  rw [READ_BT1_press_eq _ hl hdb]
  refine ⟨⟨rfl, rfl, rfl, ?_, ?_⟩, ?_, ?_⟩
  · show (ISR_TIMER2_OVF^[n] x).BT1_hold_f = 0
    rw [ticks_BT1_hold_f_idle n x h2]; exact h3
  · show (ISR_TIMER2_OVF^[n] x).debounce ≤ 20
    rw [ticks_debounce n x h4]; omega
  · show (ISR_TIMER2_OVF^[n] x).motor_en = x.motor_en
    rw [ticks_motor_en]
  · show (ISR_TIMER2_OVF^[n] x).dir_en = x.dir_en
    rw [ticks_dir_en]

/-- A press released before the hold threshold is a tap: `motor_en` is
negated and the button is idle again. -/
theorem wait_release_tap_spec (n : Nat) (x : State) (h : bt1_pressed x)
    (hn : 21 ≤ x.debounce + n) (hs : n < 1500) :
    bt1_idle (wait_release n x) ∧ (wait_release n x).motor_en = lnot x.motor_en ∧
    (wait_release n x).dir_en = x.dir_en := by
  obtain ⟨h1, h2, h3, h4, h5⟩ := h
  have hf : x.BT1_f ≠ 0 := by rw [h2]; decide
  have hdb : (ISR_TIMER2_OVF^[n] x).db_flag ≠ 0 := by
    rw [ticks_db_flag n x h5 hn]; decide
  have hl : (ISR_TIMER2_OVF^[n] x).last_button_state = 1 := by
    rw [ticks_last_button_state]; exact h1
  have hh : (ISR_TIMER2_OVF^[n] x).BT1_hold_f = 0 := by
    rw [(ticks_hold_threshold n x hf h3 h4).2, if_neg (by omega)]
  unfold wait_release
  rw [READ_BT1_tap_eq _ hl hh hdb]
  refine ⟨⟨rfl, rfl, hh, ?_⟩, ?_, ?_⟩
  · show (ISR_TIMER2_OVF^[n] x).debounce ≤ 20
    rw [ticks_debounce n x h5]; omega
  · show lnot (ISR_TIMER2_OVF^[n] x).motor_en = lnot x.motor_en
    rw [ticks_motor_en]
  · show (ISR_TIMER2_OVF^[n] x).dir_en = x.dir_en
    rw [ticks_dir_en]

theorem run_tap_then_hold :
    run reset tap_then_hold
      = wait_release 1500 (wait_press 21 (wait_release 21 (wait_press 21 reset))) := by
  have hr : ∀ (s : State) (n : Nat) (p : Nat) (rest : List Op),
      run s (ticks n ++ Op.read_bt1 p :: rest) = run (READ_BT1 p (ISR_TIMER2_OVF^[n] s)) rest := by
    intro s n p rest
    rw [run_append, run_ticks, run_cons]
    rfl
  have hnil : ∀ s : State, run s [] = s := fun _ => rfl
  unfold tap_then_hold wait_release wait_press
  rw [hr, hr, hr, hr, hnil]

theorem flip_window_tick (pc k : Nat) (s : State) (h : flip_window pc k s) (hk : k < 19)
    (hpc : pc < 5) : flip_window pc (k + 1) (ISR_TIMER2_OVF s) := by
  obtain ⟨h0, h⟩ := h
  refine ⟨by omega, ?_⟩
  rw [ISR_dir_en, ISR_BT1_hold_f, ISR_BT1_timer, ISR_dir_timer, ISR_BT1_f]
  intro hd
  obtain ⟨h1, h2, h3⟩ := h hd
  have hb : window_bound pc ≤ 76 := by
    rcases pc with _ | _ | _ | _ | _ | pc <;> simp [window_bound]
  unfold u16
  by_cases hf : s.BT1_f = 0
  · refine ⟨by simp [hf, h1], fun hc => absurd hf hc, ?_⟩
    rcases h3 with h3 | h3
    · exact Or.inl h3
    · right
      split_ifs <;> omega
  · have h2' := h2 hf
    have h3' : s.dir_timer ≤ window_bound pc + k := by
      rcases h3 with h3 | h3
      · exact absurd h3.2 hf
      · exact h3
    refine ⟨?_, ?_, Or.inr ?_⟩
    · rw [if_neg]
      · exact h1
      · intro hx; omega
    · intro _
      rw [if_pos hf]
      split_ifs <;> omega
    · split_ifs <;> omega

theorem flip_window_READ_BT1 (k : Nat) (PINC : Nat) (s : State) (h : flip_window 0 k s) :
    flip_window 1 0 (READ_BT1 PINC s) := by
  obtain ⟨h0, h⟩ := h
  refine ⟨by omega, ?_⟩
  unfold READ_BT1
  simp only []
  split_ifs with c1 c2 c3 c4 c5
  · intro hd
    obtain ⟨h1, h2, h3⟩ := h hd
    refine ⟨h1, fun _ => Nat.zero_le _, Or.inr ?_⟩
    rcases h3 with h3 | h3
    · omega
    · simp [window_bound] at h3 ⊢
      omega
  · intro hd
    obtain ⟨h1, h2, h3⟩ := h hd
    refine ⟨h1, fun hc => absurd rfl hc, Or.inl ⟨Or.inl trivial, rfl⟩⟩
  · intro hd
    obtain ⟨h1, h2, h3⟩ := h hd
    refine ⟨h1, h2, Or.inr ?_⟩
    rcases h3 with h3 | h3
    · omega
    · simp [window_bound] at h3 ⊢
      omega
  · intro _
    exact ⟨rfl, fun hc => absurd rfl hc, Or.inl ⟨Or.inl trivial, rfl⟩⟩
  · intro hd
    obtain ⟨h1, h2, h3⟩ := h hd
    refine ⟨h1, h2, Or.inr ?_⟩
    rcases h3 with h3 | h3
    · omega
    · simp [window_bound] at h3 ⊢
      omega
  · intro hd
    obtain ⟨h1, h2, h3⟩ := h hd
    refine ⟨h1, h2, Or.inr ?_⟩
    rcases h3 with h3 | h3
    · omega
    · simp [window_bound] at h3 ⊢
      omega

theorem flip_window_motor_enable (k : Nat) (s : State) (h : flip_window 1 k s) :
    flip_window 2 0 (motor_enable s) := by
  obtain ⟨h0, h⟩ := h
  have key : flip_window 2 0 s := by
    refine ⟨by omega, fun hd => ?_⟩
    obtain ⟨h1, h2, h3⟩ := h hd
    refine ⟨h1, h2, ?_⟩
    rcases h3 with h3 | h3
    · exact Or.inl ⟨Or.inr rfl, h3.2⟩
    · right
      simp [window_bound] at h3 ⊢
      omega
  unfold motor_enable
  simp only []
  split_ifs <;> exact key

theorem flip_window_dir_enable (k : Nat) (s : State) (h : flip_window 2 k s) :
    flip_window 3 0 (dir_enable s) := by
  obtain ⟨h0, h⟩ := h
  refine ⟨by omega, ?_⟩
  unfold dir_enable
  simp only []
  split_ifs with c1 c2
  · intro hd
    exact absurd rfl hd
  · intro hd
    obtain ⟨h1, h2, h3⟩ := h c1
    have ht : s.dir_timer = 0 := by
      by_contra hx
      exact c2 hx
    refine ⟨h1, h2, Or.inr ?_⟩
    show s.dir_timer ≤ window_bound 3 + 0
    omega
  · intro hd
    exact absurd hd c1

theorem flip_window_READ_BT2 (k : Nat) (PINC : Nat) (s : State) (h : flip_window 3 k s) :
    flip_window 4 0 (READ_BT2 PINC s) := by
  obtain ⟨h0, h⟩ := h
  have key : flip_window 4 0 s := by
    refine ⟨by omega, fun hd => ?_⟩
    obtain ⟨h1, h2, h3⟩ := h hd
    refine ⟨h1, h2, Or.inr ?_⟩
    rcases h3 with h3 | h3
    · omega
    · simp [window_bound] at h3 ⊢
      omega
  unfold READ_BT2
  simp only []
  split_ifs <;> exact key

theorem flip_window_PWM_enable (k : Nat) (s : State) (h : flip_window 4 k s) :
    flip_window 0 0 (PWM_enable s) := by
  obtain ⟨h0, h⟩ := h
  have key : flip_window 0 0 s := by
    refine ⟨by omega, fun hd => ?_⟩
    obtain ⟨h1, h2, h3⟩ := h hd
    refine ⟨h1, h2, Or.inr ?_⟩
    rcases h3 with h3 | h3
    · omega
    · simp [window_bound] at h3 ⊢
      omega
  unfold PWM_enable
  simp only []
  split_ifs <;> exact key

/-- The invariant holds along every execution in loop order. -/
theorem flip_window_run (ops : List Op) (pc k : Nat) (s : State) (hpc : pc < 5)
    (h : flip_window pc k s) (ho : loop_order pc k ops = true) :
    (run s ops).dir_en ≠ 0 → (run s ops).BT1_hold_f = 0 := by
  induction ops generalizing pc k s with
  | nil => exact fun hd => (h.2 hd).1
  | cons o rest ih =>
    rw [run_cons]
    cases o with
    | tick =>
      simp only [loop_order, Bool.and_eq_true, decide_eq_true_eq] at ho
      exact ih pc (k + 1) _ hpc (flip_window_tick pc k s h ho.1 hpc) ho.2
    | read_bt1 p =>
      rcases pc with _ | _ | _ | _ | _ | pc <;> simp only [loop_order] at ho
      · exact ih 1 0 _ (by omega) (flip_window_READ_BT1 k p s h) ho
      all_goals exact absurd ho (by decide)
    | motor =>
      rcases pc with _ | _ | _ | _ | _ | pc <;> simp only [loop_order] at ho
      · exact absurd ho (by decide)
      · exact ih 2 0 _ (by omega) (flip_window_motor_enable k s h) ho
      all_goals exact absurd ho (by decide)
    | dir =>
      rcases pc with _ | _ | _ | _ | _ | pc <;> simp only [loop_order] at ho
      · exact absurd ho (by decide)
      · exact absurd ho (by decide)
      · exact ih 3 0 _ (by omega) (flip_window_dir_enable k s h) ho
      all_goals exact absurd ho (by decide)
    | read_bt2 p =>
      rcases pc with _ | _ | _ | _ | _ | pc <;> simp only [loop_order] at ho
      · exact absurd ho (by decide)
      · exact absurd ho (by decide)
      · exact absurd ho (by decide)
      · exact ih 4 0 _ (by omega) (flip_window_READ_BT2 k p s h) ho
      all_goals exact absurd ho (by decide)
    | pwm =>
      rcases pc with _ | _ | _ | _ | _ | pc <;> simp only [loop_order] at ho
      · exact absurd ho (by decide)
      · exact absurd ho (by decide)
      · exact absurd ho (by decide)
      · exact absurd ho (by decide)
      · exact ih 0 0 _ (by omega) (flip_window_PWM_enable k s h) ho
      all_goals exact absurd ho (by decide)

/-- In every execution from reset in loop order, a stuck state of button 1 has
no flip pending. -/
theorem loop_order_stuck_dir_en (sched : List Op) (ho : loop_order 0 0 sched = true)
    (h : stuck_bt1 (run reset sched)) : (run reset sched).dir_en = 0 := by
  by_contra hd
  have h0 : flip_window 0 0 reset := ⟨by omega, fun hc => absurd (by decide) hc⟩
  exact h.2.1 (flip_window_run sched 0 0 reset (by omega) h0 ho hd)


/-! ## Power-on with button 1 held: the stuck state is reached in loop order -/

theorem run_hold_pass (s : State) (rest : List Op) :
    run s (hold_pass_ops ++ rest) = run (hold_pass s) rest := by
  have hnil : ∀ x : State, run x [] = x := fun _ => rfl
  unfold hold_pass_ops hold_pass
  rw [run_append, run_append, run_ticks, run_cons, run_cons, run_cons, run_cons, run_cons,
    hnil]
  simp only [step]

theorem run_hold_passes (n : Nat) (s : State) :
    run s (hold_passes n) = hold_pass^[n] s := by
  induction n generalizing s with
  | zero => rfl
  | succ k ih =>
    have h : hold_passes (k + 1) = hold_pass_ops ++ hold_passes k := rfl
    rw [h, run_hold_pass, ih, Function.iterate_succ_apply]

theorem loop_order_hold_pass (rest : List Op) :
    loop_order 0 0 (hold_pass_ops ++ rest) = loop_order 0 0 rest := by
  simp [hold_pass_ops, ticks, List.replicate, loop_order]

theorem loop_order_hold_passes (n : Nat) : loop_order 0 0 (hold_passes n) = true := by
  induction n with
  | zero => rfl
  | succ k ih =>
    have h : hold_passes (k + 1) = hold_pass_ops ++ hold_passes k := rfl
    rw [h, loop_order_hold_pass, ih]

theorem motor_enable_bt1_view (s : State) : bt1_view (motor_enable s) = bt1_view s := by
  unfold motor_enable bt1_view
  simp only []
  split_ifs <;> rfl

theorem dir_enable_bt1_view (s : State) : bt1_view (dir_enable s) = bt1_view s := by
  unfold dir_enable bt1_view
  simp only []
  split_ifs <;> rfl

theorem READ_BT2_bt1_view (PINC : Nat) (s : State) :
    bt1_view (READ_BT2 PINC s) = bt1_view s := by
  unfold READ_BT2 bt1_view
  simp only []
  split_ifs <;> rfl

theorem PWM_enable_bt1_view (s : State) : bt1_view (PWM_enable s) = bt1_view s := by
  unfold PWM_enable bt1_view
  simp only []
  split_ifs <;> rfl

/-- The pass leaves the variables of button 1 as `READ_BT1` returned them. -/
theorem hold_pass_bt1_view (s : State) :
    bt1_view (hold_pass s) = bt1_view (READ_BT1 pinc_bt1 (ISR_TIMER2_OVF^[19] s)) := by
  unfold hold_pass
  rw [PWM_enable_bt1_view, READ_BT2_bt1_view, dir_enable_bt1_view, motor_enable_bt1_view]

/-- A pressed level read while the press is already recorded changes nothing. -/
theorem READ_BT1_held (x : State) (hl : x.last_button_state = 1) :
    READ_BT1 pinc_bt1 x = x := by
  have hq : lnot (pinc_bt1 &&& BT1) ≠ 0 := by decide
  have hq2 : lnot (lnot (pinc_bt1 &&& BT1)) = 0 := by decide
  unfold READ_BT1
  simp [hq, hq2, hl]

/-- While the debounce counter has not wrapped the handler leaves `db_flag`
alone. -/
theorem ticks_db_flag_low (n : Nat) (s : State) (hn : s.debounce + n ≤ 20) :
    (ISR_TIMER2_OVF^[n] s).db_flag = s.db_flag := by
  induction n with
  | zero => rfl
  | succ k ih =>
    rw [Function.iterate_succ_apply', ISR_db_flag, ticks_debounce k s (by omega)]
    split_ifs with h1 h2
    · apply ih; omega
    · omega
    · apply ih; omega

/-- The hold counter of button 1 over `n` ticks, `T` ticks after the press was
accepted. -/
theorem ticks_held_for (n T : Nat) (s : State) (hf : s.BT1_f ≠ 0)
    (ht : s.BT1_timer = T % 1500) (hh : s.BT1_hold_f = if 1500 ≤ T then 1 else 0) :
    (ISR_TIMER2_OVF^[n] s).BT1_timer = (T + n) % 1500 ∧
    (ISR_TIMER2_OVF^[n] s).BT1_hold_f = if 1500 ≤ T + n then 1 else 0 := by
  induction n with
  | zero => exact ⟨ht, hh⟩
  | succ k ih =>
    obtain ⟨h1, h2⟩ := ih
    have hf2 : (ISR_TIMER2_OVF^[k] s).BT1_f ≠ 0 := by rw [ticks_BT1_f]; exact hf
    rw [Function.iterate_succ_apply', ISR_BT1_timer, ISR_BT1_hold_f, if_pos hf2, h1, h2]
    unfold u16
    constructor
    · split_ifs <;> omega
    · split_ifs <;> first | rfl | omega

/-- The first pass after reset: the debounce flag is not yet raised, the press
is not accepted. -/
theorem hold_pass_reset :
    bt1_idle (hold_pass reset) ∧ (hold_pass reset).motor_en = 0 ∧
    (hold_pass reset).debounce = 19 := by
  have hv := hold_pass_bt1_view reset
  have hdb : (ISR_TIMER2_OVF^[19] reset).db_flag = 0 := by
    rw [ticks_db_flag_low 19 reset (by decide)]; rfl
  rw [READ_BT1_db_clear pinc_bt1 _ hdb] at hv
  unfold bt1_view at hv
  simp only [Prod.mk.injEq] at hv
  obtain ⟨v1, _, v3, v4, v5, v6⟩ := hv
  have e1 : (ISR_TIMER2_OVF^[19] reset).BT1_f = 0 := by rw [ticks_BT1_f]; rfl
  have e3 : (ISR_TIMER2_OVF^[19] reset).BT1_hold_f = 0 := by
    rw [ticks_BT1_hold_f_idle 19 reset rfl]; rfl
  have e4 : (ISR_TIMER2_OVF^[19] reset).last_button_state = 0 := by
    rw [ticks_last_button_state]; rfl
  have e5 : (ISR_TIMER2_OVF^[19] reset).motor_en = 0 := by rw [ticks_motor_en]; rfl
  have e6 : (ISR_TIMER2_OVF^[19] reset).debounce = 19 := by
    rw [ticks_debounce 19 reset (by decide)]; rfl
  rw [e1] at v1; rw [e3] at v3; rw [e4] at v4; rw [e5] at v5; rw [e6] at v6
  exact ⟨⟨v4, v1, v3, by omega⟩, v5, v6⟩

/-- A pass that starts with button 1 idle, the motor stopped and the debounce
counter at 2 or more accepts the press. -/
theorem hold_pass_accepts (s : State) (h : bt1_idle s) (hm : s.motor_en = 0)
    (hd : 2 ≤ s.debounce) : held_for 0 (hold_pass s) := by
  have hv := hold_pass_bt1_view s
  have hw := wait_press_spec 19 s h (by omega)
  unfold wait_press at hw
  obtain ⟨⟨w1, w2, w3, w4, _⟩, w5, _⟩ := hw
  unfold bt1_view at hv
  simp only [Prod.mk.injEq] at hv
  obtain ⟨v1, v2, v3, v4, v5, _⟩ := hv
  refine ⟨by rw [v4, w1], by rw [v1, w2]; decide, by rw [v5, w5, hm], by rw [v2, w3], ?_⟩
  rw [v3, w4]; rfl

/-- A pass with the press already recorded adds its 19 ticks to the hold
counter. -/
theorem hold_pass_held_for (T : Nat) (s : State) (h : held_for T s) :
    held_for (T + 19) (hold_pass s) := by
  obtain ⟨h1, h2, h3, h4, h5⟩ := h
  have hv := hold_pass_bt1_view s
  have hl : (ISR_TIMER2_OVF^[19] s).last_button_state = 1 := by
    rw [ticks_last_button_state]; exact h1
  rw [READ_BT1_held _ hl] at hv
  unfold bt1_view at hv
  simp only [Prod.mk.injEq] at hv
  obtain ⟨v1, v2, v3, v4, v5, _⟩ := hv
  have ht := ticks_held_for 19 T s h2 h4 h5
  refine ⟨by rw [v4, hl], by rw [v1, ticks_BT1_f]; exact h2,
    by rw [v5, ticks_motor_en, h3], by rw [v2, ht.1], by rw [v3, ht.2]⟩

theorem hold_pass_iterate (n T : Nat) (s : State) (h : held_for T s) :
    held_for (T + 19 * n) (hold_pass^[n] s) := by
  induction n with
  | zero => exact h
  | succ k ih =>
    rw [Function.iterate_succ_apply']
    have := hold_pass_held_for _ _ ih
    have e : T + 19 * k + 19 = T + 19 * (k + 1) := by ring
    rw [e] at this
    exact this

/-- The schedule `power_on_hold` is in loop order. -/
theorem power_on_hold_loop_order : loop_order 0 0 power_on_hold = true :=
  loop_order_hold_passes 81

/-- The schedule `power_on_hold` ends in a stuck state of button 1. -/
theorem power_on_hold_stuck : stuck_bt1 (run reset power_on_hold) := by
  have h1 := hold_pass_reset
  have h2 := hold_pass_accepts (hold_pass reset) h1.1 h1.2.1 (by rw [h1.2.2]; decide)
  have h3 := hold_pass_iterate 79 0 _ h2
  have e : run reset power_on_hold = hold_pass^[79] (hold_pass (hold_pass reset)) := by
    unfold power_on_hold
    rw [run_hold_passes]
    have e1 : (81 : Nat) = 79 + 1 + 1 := rfl
    rw [e1, Function.iterate_succ_apply, Function.iterate_succ_apply]
  rw [e]
  obtain ⟨a1, _, a3, _, a5⟩ := h3
  refine ⟨a1, ?_, a3⟩
  rw [a5, if_pos (by decide)]
  decide

/-! ## The dead-time counter along the gestures -/

theorem ticks_dir_timer (n : Nat) (s : State) (h : s.dir_timer < 100) :
    (ISR_TIMER2_OVF^[n] s).dir_timer = (s.dir_timer + n) % 100 := by
  induction n with
  | zero => simp; omega
  | succ k ih =>
    rw [Function.iterate_succ_apply', ISR_dir_timer, ih]
    unfold u16
    split_ifs <;> omega

theorem READ_BT1_dir_timer (PINC : Nat) (s : State) :
    (READ_BT1 PINC s).dir_timer = s.dir_timer := by
  unfold READ_BT1
  simp only []
  split_ifs <;> rfl

theorem wait_press_dir_timer (n : Nat) (x : State) (h : x.dir_timer < 100) :
    (wait_press n x).dir_timer = (x.dir_timer + n) % 100 := by
  unfold wait_press
  rw [READ_BT1_dir_timer, ticks_dir_timer n x h]

theorem wait_release_dir_timer (n : Nat) (x : State) (h : x.dir_timer < 100) :
    (wait_release n x).dir_timer = (x.dir_timer + n) % 100 := by
  unfold wait_release
  rw [READ_BT1_dir_timer, ticks_dir_timer n x h]

/-- At the end of `tap_then_hold` (1563 ticks after reset) the dead-time
counter reads 63. -/
theorem tap_then_hold_dir_timer : (run reset tap_then_hold).dir_timer = 63 := by
  have h0 : reset.dir_timer = 0 := rfl
  have a := wait_press_dir_timer 21 reset (by rw [h0]; decide)
  rw [h0] at a
  have b := wait_release_dir_timer 21 (wait_press 21 reset) (by rw [a]; decide)
  rw [a] at b
  have c := wait_press_dir_timer 21 (wait_release 21 (wait_press 21 reset)) (by rw [b]; decide)
  rw [b] at c
  have d := wait_release_dir_timer 1500 (wait_press 21 (wait_release 21 (wait_press 21 reset)))
    (by rw [c]; decide)
  rw [c] at d
  rw [run_tap_then_hold, d]

/-- A `dir_enable` call that observes `dir_timer ≠ 0` returns with `dir_en`
clear. -/
theorem dir_enable_completes (s : State) (ht : s.dir_timer ≠ 0) : (dir_enable s).dir_en = 0 := by
  rw [dir_enable_dir_en]
  by_cases h : s.dir_en = 0
  · simp [h]
  · simp [h, ht]

theorem dir_enable_dir_timer (s : State) : (dir_enable s).dir_timer = s.dir_timer := by
  unfold dir_enable
  simp only []
  split_ifs <;> rfl

theorem run_first_flip : run reset first_flip = dir_enable (run reset tap_then_hold) := by
  have hnil : ∀ x : State, run x [] = x := fun _ => rfl
  have hstep : ∀ x : State, step x Op.dir = dir_enable x := fun _ => rfl
  unfold first_flip
  rw [run_append, run_cons, hnil, hstep]

/-- Claim C4, amended: in every state with `dir_en` set (and `duty` an 8-bit
value) `motor_enable` and `PWM_enable` leave `dir_en` set, and the duty they
return does not depend on `dir_en`.  `motor_enable` leaves `duty` unchanged
exactly when no ramp step is due (`duty_f` clear, or motor enabled with `duty`
at or above the ramp target, or motor disabled with `duty = 0`).  `PWM_enable`
leaves `duty` unchanged when no increment step is due (`duty = 0`, or `PWM_f2`
clear and one of `PWM_f1`, `duty_inc_f` clear); a due continuous step alone
with `0 < duty < 255` gives `duty + 1` and a due tap step alone with
`duty + 25 ≤ 255` gives `duty + 25`. -/
theorem C4_duty_steps_ignore_pending_flip (s : State) (hdir : s.dir_en ≠ 0)
    (hd : s.duty < 256) :
    (motor_enable s).dir_en ≠ 0 ∧ (PWM_enable s).dir_en ≠ 0 ∧
    (∀ d : Nat, (motor_enable { s with dir_en := d }).duty = (motor_enable s).duty) ∧
    (∀ d : Nat, (PWM_enable { s with dir_en := d }).duty = (PWM_enable s).duty) ∧
    ((motor_enable s).duty = s.duty ↔
      (s.duty_f = 0 ∨ (s.motor_en ≠ 0 ∧ duty_in ≤ s.duty) ∨ (s.motor_en = 0 ∧ s.duty = 0))) ∧
    ((s.duty = 0 ∨ (s.PWM_f2 = 0 ∧ (s.PWM_f1 = 0 ∨ s.duty_inc_f = 0))) →
      (PWM_enable s).duty = s.duty) ∧
    (s.PWM_f1 ≠ 0 → s.duty_inc_f ≠ 0 → s.PWM_f2 = 0 → 0 < s.duty → s.duty < 255 →
      (PWM_enable s).duty = s.duty + 1) ∧
    (s.PWM_f2 ≠ 0 → (s.PWM_f1 = 0 ∨ s.duty_inc_f = 0) → 0 < s.duty → s.duty + 25 ≤ 255 →
      (PWM_enable s).duty = s.duty + 25) := by
  refine ⟨?_, ?_, motor_enable_duty_indep s, PWM_enable_duty_indep s,
    motor_enable_duty_iff s hd, (PWM_enable_duty_iff s hd).mpr,
    PWM_enable_continuous_step s, PWM_enable_tap_step s⟩
  · rw [motor_enable_dir_en]; exact hdir
  · rw [PWM_enable_dir_en]; exact hdir

/-- Claim C4, amended, applied to the running motor with a flip pending while
button 2 is held in continuous mode and a step is due: `dir_en` stays set and
the duty goes from 100 to 101, as it does with `dir_en` clear. -/
theorem C4_duty_steps_ignore_pending_flip_witness :
    inc_during_flip.dir_en ≠ 0 ∧ inc_during_flip.duty < 256 ∧
    (PWM_enable inc_during_flip).dir_en ≠ 0 ∧
    (PWM_enable { inc_during_flip with dir_en := 0 }).duty = (PWM_enable inc_during_flip).duty ∧
    (PWM_enable inc_during_flip).duty = inc_during_flip.duty + 1 :=
  ⟨by decide, by decide,
   (C4_duty_steps_ignore_pending_flip inc_during_flip (by decide) (by decide)).2.1,
   (C4_duty_steps_ignore_pending_flip inc_during_flip (by decide) (by decide)).2.2.2.1 0,
   (C4_duty_steps_ignore_pending_flip inc_during_flip (by decide) (by decide)).2.2.2.2.2.2.1
     (by decide) (by decide) (by decide) (by decide) (by decide)⟩

/-- Claim C22: in every execution from reset, from a state with `dir_en` clear,
two direction toggles, each setting `dir_en` and completed by one `dir_enable`
call that observes `dir_timer ≠ 0`, restore `PORTB`, leave `dir_en` clear and
leave `duty`, `OCR0A` and `OCR0B` as they were. -/
theorem C22_direction_round_trip (ops : List Op) (hd : (run reset ops).dir_en = 0)
    (ht : (run reset ops).dir_timer ≠ 0) :
    (toggle_direction (toggle_direction (run reset ops))).PORTB = (run reset ops).PORTB ∧
    (toggle_direction (toggle_direction (run reset ops))).dir_en = 0 ∧
    (toggle_direction (toggle_direction (run reset ops))).duty = (run reset ops).duty ∧
    (toggle_direction (toggle_direction (run reset ops))).OCR0A = (run reset ops).OCR0A ∧
    (toggle_direction (toggle_direction (run reset ops))).OCR0B = (run reset ops).OCR0B := by
  have hm : matched_pwm (run reset ops) := matched_pwm_run ops reset (by decide)
  obtain ⟨h1, h2, h3, h4, h5⟩ := toggle_round_trip (run reset ops) hd ht
  exact ⟨h1, h2, h3, h4.trans hm.1.symm, h5.trans hm.2.symm⟩

/-- Claim C22 applied to the execution `first_flip`: the motor switched on by a
tap, a first reversal requested by a hold and completed by `dir_enable`, with
the dead-time counter at 63. -/
theorem C22_direction_round_trip_witness :
    (run reset first_flip).dir_en = 0 ∧ (run reset first_flip).dir_timer ≠ 0 ∧
    (toggle_direction (toggle_direction (run reset first_flip))).PORTB
      = (run reset first_flip).PORTB ∧
    (toggle_direction (toggle_direction (run reset first_flip))).dir_en = 0 ∧
    (toggle_direction (toggle_direction (run reset first_flip))).duty
      = (run reset first_flip).duty ∧
    (toggle_direction (toggle_direction (run reset first_flip))).OCR0A
      = (run reset first_flip).OCR0A ∧
    (toggle_direction (toggle_direction (run reset first_flip))).OCR0B
      = (run reset first_flip).OCR0B :=
  have hd : (run reset first_flip).dir_en = 0 := by
    rw [run_first_flip]
    exact dir_enable_completes _ (by rw [tap_then_hold_dir_timer]; decide)
  have ht : (run reset first_flip).dir_timer ≠ 0 := by
    rw [run_first_flip, dir_enable_dir_timer, tap_then_hold_dir_timer]; decide
  ⟨hd, ht, C22_direction_round_trip first_flip hd ht⟩

/-- Claim C25: the set of states with `last_button_state = 1`, `BT1_hold_f` set
and `motor_en = 0` is closed under the tick handler, `READ_BT1`,
`motor_enable`, `dir_enable`, `READ_BT2` and `PWM_enable` for every button
input; inside it `READ_BT1` changes nothing, whatever the button level and
`db_flag`, and `READ_BT2` never sets `BT2_f`; so along every execution from
such a state `motor_en` never changes, and `dir_en` never changes when it is
clear.  It is clear whenever the state was reached from reset by an execution
in the order of the main loop (at most 19 ticks before each call), so from
every such state `dir_en` never changes again. -/
theorem C25_stuck_state_is_absorbing (PINC1 PINC2 : Nat) (s : State) (ops : List Op)
    (h : stuck_bt1 s) :
    (stuck_bt1 (ISR_TIMER2_OVF s) ∧ stuck_bt1 (READ_BT1 PINC1 s) ∧
      stuck_bt1 (motor_enable s) ∧ stuck_bt1 (dir_enable s) ∧
      stuck_bt1 (READ_BT2 PINC2 s) ∧ stuck_bt1 (PWM_enable s)) ∧
    READ_BT1 PINC1 s = s ∧
    (bt2_pressed PINC2 → (READ_BT2 PINC2 s).BT2_f = s.BT2_f) ∧
    (s.BT2_f = 0 → (READ_BT2 PINC2 s).BT2_f = 0) ∧
    stuck_bt1 (run s ops) ∧
    (run s ops).motor_en = s.motor_en ∧
    (s.dir_en = 0 → (run s ops).dir_en = s.dir_en) ∧
    (∀ sched : List Op, loop_order 0 0 sched = true → run reset sched = s →
      s.dir_en = 0 ∧ (run s ops).dir_en = s.dir_en) := by
  have hid := READ_BT1_stuck PINC1 s h
  have hkeep : s.dir_en = 0 → (run s ops).dir_en = s.dir_en := by
    intro h0
    rw [stuck_bt1_run_dir_en ops s h h0, h0]
  refine ⟨⟨stuck_bt1_ISR s h, by rw [hid]; exact h, stuck_bt1_motor_enable s h,
      stuck_bt1_dir_enable s h, stuck_bt1_READ_BT2 PINC2 s h, stuck_bt1_PWM_enable s h⟩,
    hid, READ_BT2_pressed_BT2_f_stopped PINC2 s h.2.2,
    READ_BT2_no_press_when_stopped PINC2 s h.2.2, stuck_bt1_run ops s h, ?_, hkeep, ?_⟩
  · rw [(stuck_bt1_run ops s h).2.2, h.2.2]
  · intro sched ho hs
    subst hs
    have h0 := loop_order_stuck_dir_en sched ho h
    exact ⟨h0, hkeep h0⟩

/-- Claim C25 applied to the state reached from reset by `power_on_hold`
(button 1 held down from power-on for 81 passes of the main loop), followed by
a release, a tick, a press of button 2 and the rest of the loop. -/
theorem C25_stuck_state_is_absorbing_witness :
    stuck_bt1 (run reset power_on_hold) ∧ loop_order 0 0 power_on_hold = true ∧
    READ_BT1 pinc_released (run reset power_on_hold) = run reset power_on_hold ∧
    stuck_bt1 (run (run reset power_on_hold)
      [Op.read_bt1 pinc_released, Op.tick, Op.motor, Op.dir, Op.read_bt2 pinc_bt2, Op.pwm]) ∧
    (run (run reset power_on_hold)
      [Op.read_bt1 pinc_released, Op.tick, Op.motor, Op.dir, Op.read_bt2 pinc_bt2, Op.pwm]).motor_en
        = (run reset power_on_hold).motor_en ∧
    (run reset power_on_hold).dir_en = 0 ∧
    (run (run reset power_on_hold)
      [Op.read_bt1 pinc_released, Op.tick, Op.motor, Op.dir, Op.read_bt2 pinc_bt2, Op.pwm]).dir_en
        = (run reset power_on_hold).dir_en :=
  have T := C25_stuck_state_is_absorbing pinc_released pinc_bt2 (run reset power_on_hold)
    [Op.read_bt1 pinc_released, Op.tick, Op.motor, Op.dir, Op.read_bt2 pinc_bt2, Op.pwm]
    power_on_hold_stuck
  ⟨power_on_hold_stuck, power_on_hold_loop_order, T.2.1, T.2.2.2.2.1, T.2.2.2.2.2.1,
   (T.2.2.2.2.2.2.2 power_on_hold power_on_hold_loop_order rfl).1,
   (T.2.2.2.2.2.2.2 power_on_hold power_on_hold_loop_order rfl).2⟩

/-! ## A first hold of button 2 leaves the hold flag set -/

theorem ISR_bt2_view (s : State) : bt2_view (ISR_TIMER2_OVF s) = bt2_view s := by
  unfold bt2_view
  simp [ISR_blocks, isr_counters_eq, isr_gled_eq, isr_debounce_eq, isr_duty_timer_eq,
    isr_duty_inc_eq, isr_dir_timer_eq, isr_bt1_eq, isr_bt2_eq, isr_blink_eq]

theorem ticks_bt2_view (n : Nat) (s : State) : bt2_view (ISR_TIMER2_OVF^[n] s) = bt2_view s := by
  induction n with
  | zero => rfl
  | succ k ih => rw [Function.iterate_succ_apply', ISR_bt2_view, ih]

theorem READ_BT1_bt2_view (PINC : Nat) (s : State) :
    bt2_view (READ_BT1 PINC s) = bt2_view s := by
  unfold READ_BT1 bt2_view
  simp only []
  split_ifs <;> rfl

/-- Effect of the handler on the hold counter of button 2. -/
theorem ISR_BT2_timer (s : State) : (ISR_TIMER2_OVF s).BT2_timer =
    if s.BT2_f ≠ 0 then u16 (s.BT2_timer + 1) else s.BT2_timer := by
  simp [ISR_blocks, isr_counters_eq, isr_gled_eq, isr_debounce_eq, isr_duty_timer_eq,
    isr_duty_inc_eq, isr_dir_timer_eq, isr_bt1_eq, isr_bt2_eq, isr_blink_eq]

/-- While button 2 is pressed, starting from `BT2_timer = 0`: after `n` ticks
the hold counter is `n` and from the 1000th tick on the hold flag is set. -/
theorem ticks_bt2_hold (n : Nat) (s : State) (hf : s.BT2_f ≠ 0) (ht : s.BT2_timer = 0)
    (hn : n < 65536) :
    (ISR_TIMER2_OVF^[n] s).BT2_timer = n ∧
    (1000 ≤ n → (ISR_TIMER2_OVF^[n] s).BT2_hold_f ≠ 0) := by
  induction n with
  | zero => exact ⟨ht, fun h => absurd h (by decide)⟩
  | succ k ih =>
    obtain ⟨h1, h2⟩ := ih (by omega)
    have hv := ticks_bt2_view k s
    unfold bt2_view at hv
    simp only [Prod.mk.injEq] at hv
    have hf2 : (ISR_TIMER2_OVF^[k] s).BT2_f ≠ 0 := by rw [hv.1]; exact hf
    rw [Function.iterate_succ_apply', ISR_BT2_timer, ISR_BT2_hold_f, if_pos hf2, h1]
    unfold u16
    constructor
    · omega
    · intro hk
      split_ifs with hc
      · decide
      · apply h2
        have : ¬ (k + 1) % 65536 = 1000 := fun hx => hc ⟨hf2, hx⟩
        omega

theorem run_hold_button2 :
    run reset hold_button2
      = READ_BT2 pinc_released (ISR_TIMER2_OVF^[1000]
          (READ_BT2 pinc_bt2 (wait_release 21 (wait_press 21 reset)))) := by
  have hr : ∀ (s : State) (n : Nat) (p : Nat) (rest : List Op),
      run s (ticks n ++ Op.read_bt1 p :: rest) = run (READ_BT1 p (ISR_TIMER2_OVF^[n] s)) rest := by
    intro s n p rest
    rw [run_append, run_ticks, run_cons]
    rfl
  have hr2 : ∀ (s : State) (p : Nat), run s [Op.read_bt2 p] = READ_BT2 p s := fun _ _ => rfl
  have hs : ∀ (s : State) (p : Nat), step s (Op.read_bt2 p) = READ_BT2 p s := fun _ _ => rfl
  unfold hold_button2 wait_release wait_press
  rw [hr, hr, run_cons, hs, run_append, run_ticks, hr2]

/-- With the motor running and button 2 idle, a press of button 2 held for `n`
ticks (1000 or more) and released leaves the motor running, button 2 idle,
`PWM_f1` as it was and the hold flag of button 2 set. -/
theorem hold_release_bt2_spec (n : Nat) (m : State) (hm : m.motor_en ≠ 0) (v1 : m.BT2_f = 0)
    (hd : m.debounce ≤ 20) (hn : 1000 ≤ n) (hb : n < 65536) :
    (READ_BT2 pinc_released (ISR_TIMER2_OVF^[n] (READ_BT2 pinc_bt2 m))).BT2_f = 0 ∧
    (READ_BT2 pinc_released (ISR_TIMER2_OVF^[n] (READ_BT2 pinc_bt2 m))).motor_en ≠ 0 ∧
    (READ_BT2 pinc_released (ISR_TIMER2_OVF^[n] (READ_BT2 pinc_bt2 m))).BT2_hold_f ≠ 0 ∧
    (READ_BT2 pinc_released (ISR_TIMER2_OVF^[n] (READ_BT2 pinc_bt2 m))).PWM_f1 = m.PWM_f1 := by
  have hp : READ_BT2 pinc_bt2 m =
      { m with BT2_f := 1, BT2_timer := 0, PORTC := m.PORTC ||| Y_LED, db_flag := 0 } := by
    rw [READ_BT2_pressed pinc_bt2 m (by decide), if_pos ⟨v1, hm⟩]
  have hq := ticks_bt2_hold n (READ_BT2 pinc_bt2 m) (by rw [hp]; exact Nat.one_ne_zero)
    (by rw [hp]) hb
  have hqv := ticks_bt2_view n (READ_BT2 pinc_bt2 m)
  unfold bt2_view at hqv
  simp only [Prod.mk.injEq] at hqv
  have hqd : (ISR_TIMER2_OVF^[n] (READ_BT2 pinc_bt2 m)).db_flag = 1 := by
    apply ticks_db_flag
    · rw [hp]; exact hd
    · omega
  have hqm : (ISR_TIMER2_OVF^[n] (READ_BT2 pinc_bt2 m)).motor_en ≠ 0 := by
    rw [ticks_motor_en, READ_BT2_motor_en]; exact hm
  have hqf : (ISR_TIMER2_OVF^[n] (READ_BT2 pinc_bt2 m)).BT2_f ≠ 0 := by
    rw [hqv.1, hp]; exact Nat.one_ne_zero
  have hq1 : (ISR_TIMER2_OVF^[n] (READ_BT2 pinc_bt2 m)).PWM_f1 = m.PWM_f1 := by
    rw [hqv.2.1, hp]
  have hqh := hq.2 hn
  generalize ISR_TIMER2_OVF^[n] (READ_BT2 pinc_bt2 m) = q at hqd hqm hqf hq1 hqh ⊢
  rw [READ_BT2_released pinc_released q (by decide), if_pos hqf, if_pos (by rw [hqd]; decide)]
  exact ⟨rfl, hqm, hqh, hq1⟩

/-- The execution `hold_button2` from reset ends with the motor running,
button 2 idle, continuous mode off and the hold flag of button 2 set. -/
theorem hold_button2_stale_flag :
    (run reset hold_button2).BT2_f = 0 ∧ (run reset hold_button2).motor_en ≠ 0 ∧
    (run reset hold_button2).BT2_hold_f ≠ 0 ∧ (run reset hold_button2).PWM_f1 = 0 := by
  have h0 : bt1_idle reset := ⟨rfl, rfl, rfl, by decide⟩
  have a := wait_press_spec 21 reset h0 (by decide)
  have b := wait_release_tap_spec 21 _ a.1 (by have := a.1.2.2.2.2; omega) (by decide)
  have hm : (wait_release 21 (wait_press 21 reset)).motor_en ≠ 0 := by
    rw [b.2.1, a.2.1]; decide
  have hv : bt2_view (wait_release 21 (wait_press 21 reset)) = bt2_view reset := by
    unfold wait_release wait_press
    rw [READ_BT1_bt2_view, ticks_bt2_view, READ_BT1_bt2_view, ticks_bt2_view]
  unfold bt2_view at hv
  simp only [Prod.mk.injEq] at hv
  obtain ⟨v1, v2, _⟩ := hv
  have r1 : reset.BT2_f = 0 := rfl
  have r2 : reset.PWM_f1 = 0 := rfl
  rw [r1] at v1
  rw [r2] at v2
  have hs := hold_release_bt2_spec 1000 _ hm v1 b.1.2.2.2 (by decide) (by decide)
  rw [v2] at hs
  rw [run_hold_button2]
  exact hs

/-- In the state reached by `hold_button2`, two `READ_BT2` calls with button 2
pressed differ from one. -/
theorem hold_button2_not_idempotent :
    READ_BT2 pinc_bt2 (READ_BT2 pinc_bt2 (run reset hold_button2))
      ≠ READ_BT2 pinc_bt2 (run reset hold_button2) := by
  obtain ⟨h1, h2, h3, h4⟩ := hold_button2_stale_flag
  intro he
  exact (READ_BT2_twice_iff pinc_bt2 _).mp he
    ⟨by decide, h1, h2, h3, Or.inl (by rw [h4]; decide)⟩

/-- Claim C21, evaluated on the code: after a first hold of button 2
(`BT2_hold_f` set and, unlike `BT1_hold_f` in `READ_BT1`, never cleared), with
the motor running and button 2 idle, the first `READ_BT2` call with the button
pressed accepts the press and the second call with the same input raises
`PWM_f1` and `RLED_blink`, so two calls differ from one.  Evaluated on the
state `after_first_hold`, and on the state reached from reset by the execution
`hold_button2` (a tap of button 1, then button 2 held for 1000 ticks and
released). -/
theorem C21_second_call_enters_continuous_mode :
    (bt2_pressed pinc_bt2 ∧
      (READ_BT2 pinc_bt2 after_first_hold).BT2_f = 1 ∧
      (READ_BT2 pinc_bt2 after_first_hold).PWM_f1 = 0 ∧
      (READ_BT2 pinc_bt2 (READ_BT2 pinc_bt2 after_first_hold)).PWM_f1 = 1 ∧
      (READ_BT2 pinc_bt2 (READ_BT2 pinc_bt2 after_first_hold)).RLED_blink = 1 ∧
      READ_BT2 pinc_bt2 (READ_BT2 pinc_bt2 after_first_hold)
        ≠ READ_BT2 pinc_bt2 after_first_hold) ∧
    ((run reset hold_button2).BT2_f = 0 ∧ (run reset hold_button2).motor_en ≠ 0 ∧
      (run reset hold_button2).BT2_hold_f ≠ 0 ∧ (run reset hold_button2).PWM_f1 = 0 ∧
      READ_BT2 pinc_bt2 (READ_BT2 pinc_bt2 (run reset hold_button2))
        ≠ READ_BT2 pinc_bt2 (run reset hold_button2)) := by
  refine ⟨by decide, hold_button2_stale_flag.1, hold_button2_stale_flag.2.1,
    hold_button2_stale_flag.2.2.1, hold_button2_stale_flag.2.2.2, hold_button2_not_idempotent⟩

end MotorDC
